import Mathlib

/-!
# Crystal Grimoire: quota and metering core

A shallow embedding of the credit ledger (`functions/credit-system.js`), of the
cost-protection layer (`functions/cost-protection.js`), of the gates of the
identification handler (`functions/index-ultra-safe.js`) and of the gamification
helpers the properties are about (`functions/image-preprocessing.js`,
`functions/referral-system.js`, `functions/streak-system.js`,
`functions/achievement-system.js`), followed by the properties proved about them.

Conventions of the embedding.

* A Firestore document is an `Option` of a record: `none` is "the document does not
  exist" (`doc.exists === false`).
* Credit amounts are integers (`Int`); money amounts are exact rationals (`ℚ`);
  instants are integer milliseconds since the epoch (`Int`), and one call reads the
  clock once (`new Date()`, `Timestamp.now()` and `Date.now()` inside one call are the
  same instant).
* `db.runTransaction` runs its callback on a snapshot, buffers the writes, and commits
  them all if the callback returns, or none of them if the callback throws.
* An `HttpsError` thrown by a function is an `Except.error`; every throw site has its
  own constructor, carrying the values interpolated in its message.
* The server timestamps `lastUpdated`, `createdAt`, `timestamp` and the free-form
  `metadata` object of the credit records are write-only in the code and left out.
* A configuration table is looked up by its own keys: a tier name or operation type
  is one of the keys of the table or a name that no JavaScript object has.
-/

namespace CrystalGrimoire

/-! ## credit-system.js -/

/-- The constant `CREDIT_CONFIG.signup`. -/
def CREDIT_CONFIG_signup : Int := 15

/-- The document `users/{userId}/credits/balance`. -/
structure CreditRecord where
  balance : Int
  totalEarned : Int
  totalSpent : Int
  deriving DecidableEq, Repr

/-- The `type` field of a transaction record. -/
inductive TransactionType where
  | award
  | deduction
  deriving DecidableEq, Repr

/-- A document of `users/{userId}/credits/transactions/history`. The field `reason`
holds `reason` for an award and `operation` for a deduction. -/
structure CreditTransaction where
  type : TransactionType
  amount : Int
  reason : String
  balanceAfter : Int
  deriving DecidableEq, Repr

/-- The credit documents of one user: the balance document and the history
collection, in the order the records were written. -/
structure Ledger where
  record : Option CreditRecord
  history : List CreditTransaction
  deriving DecidableEq, Repr

/-- One access to the credit ledger, recorded in the order it happens. -/
inductive LedgerAccess where
  | read (userId : String)
  | write (userId : String)
  deriving DecidableEq, Repr

/-- The credit part of the database: the documents of every user, and the trace of
the accesses made so far. -/
structure CreditDb where
  docs : String → Ledger
  accesses : List LedgerAccess

/-- The errors raised by the credit functions. `insufficientCredits` is the
`HttpsError` of `deductCredits`, `notEnoughCredits` the one of `checkCredits`,
`notFound` is Firestore refusing `update` on a document that does not exist. -/
inductive CreditError where
  | insufficientCredits (need have_ : Int)
  | notEnoughCredits (need have_ : Int)
  | notFound
  deriving DecidableEq, Repr

/-- A field of an `update` call: left out, given a value, or `FieldValue.increment`. -/
inductive FieldOp where
  | keep
  | setTo (v : Int)
  | increment (v : Int)
  deriving DecidableEq, Repr

/-- The value of a field after a `FieldOp`. -/
def FieldOp.apply : FieldOp → Int → Int
  | .keep, old => old
  | .setTo v, _ => v
  | .increment v, old => old + v

/-- A write buffered by a transaction on one user's credit documents. -/
inductive TxWrite where
  | setBalance (r : CreditRecord)
  | updateBalance (balance totalEarned totalSpent : FieldOp)
  | addHistory (t : CreditTransaction)
  deriving DecidableEq, Repr

/-- Commit one buffered write. `update` needs the document to exist. -/
def applyWrite (l : Ledger) : TxWrite → Except CreditError Ledger
  | .setBalance r => .ok { l with record := some r }
  | .updateBalance b e s =>
    match l.record with
    | none => .error .notFound
    | some r =>
      let r1 : CreditRecord :=
        { balance := b.apply r.balance
          totalEarned := e.apply r.totalEarned
          totalSpent := s.apply r.totalSpent }
      .ok { l with record := some r1 }
  | .addHistory t => .ok { l with history := l.history ++ [t] }

/-- Commit the buffered writes in order; one failure fails the commit. -/
def applyWrites (l : Ledger) : List TxWrite → Except CreditError Ledger
  | [] => .ok l
  | w :: ws =>
    match applyWrite l w with
    | .error e => .error e
    | .ok l1 => applyWrites l1 ws

/-- The call `db.runTransaction(callback)` on the credit documents of `userId`: the
callback reads the balance document and returns the writes it buffered, or throws.
All writes are committed, or none. -/
def runTransaction (db : CreditDb) (userId : String)
    (callback : Option CreditRecord → Except CreditError (List TxWrite)) :
    Except CreditError Unit × CreditDb :=
  let l := db.docs userId
  let db1 : CreditDb := { db with accesses := db.accesses ++ [.read userId] }
  match callback l.record with
  | .error e => (.error e, db1)
  | .ok ws =>
    match applyWrites l ws with
    | .error e => (.error e, db1)
    | .ok l1 =>
      (.ok (), { docs := Function.update db.docs userId l1
                 accesses := db1.accesses ++ [.write userId] })

/-- The function `getCreditBalance(userId)`. -/
def getCreditBalance (db : CreditDb) (userId : String) : Int × CreditDb :=
  let l := db.docs userId
  let db1 : CreditDb := { db with accesses := db.accesses ++ [.read userId] }
  match l.record with
  | none =>
    let r : CreditRecord :=
      { balance := CREDIT_CONFIG_signup
        totalEarned := CREDIT_CONFIG_signup
        totalSpent := 0 }
    (CREDIT_CONFIG_signup,
      { docs := Function.update db.docs userId { l with record := some r }
        accesses := db1.accesses ++ [.write userId] })
  | some r => (if r.balance ≠ 0 then r.balance else 0, db1)

/-- The `balance` field of the result of `checkCredits`: a number or `Infinity`. -/
inductive BalanceValue where
  | finite (n : Int)
  | infinity
  deriving DecidableEq, Repr

/-- The object returned by `checkCredits`. -/
structure CheckCreditsResult where
  hasCredits : Bool
  balance : BalanceValue
  deriving DecidableEq, Repr

/-- The function `checkCredits(userId, cost, userTier)`. -/
def checkCredits (db : CreditDb) (userId : String) (cost : Int) (userTier : String) :
    Except CreditError CheckCreditsResult × CreditDb :=
  if userTier ≠ "free" then
    (.ok { hasCredits := true, balance := .infinity }, db)
  else
    let (balance, db1) := getCreditBalance db userId
    if balance < cost then
      (.error (.notEnoughCredits cost balance), db1)
    else
      (.ok { hasCredits := true, balance := .finite balance }, db1)

/-- The expression `doc.exists ? doc.data().balance : 0`. -/
def balanceOrZero (doc : Option CreditRecord) : Int :=
  match doc with
  | some r => r.balance
  | none => 0

/-- The transaction callback of `deductCredits`. -/
def deductCreditsCallback (cost : Int) (operation : String)
    (doc : Option CreditRecord) : Except CreditError (List TxWrite) :=
  let currentBalance : Int := balanceOrZero doc
  if currentBalance < cost then
    .error (.insufficientCredits cost currentBalance)
  else
    let newBalance := currentBalance - cost
    .ok [ .updateBalance (.setTo newBalance) .keep (.increment cost),
          .addHistory
            { type := .deduction, amount := -cost, reason := operation,
              balanceAfter := newBalance } ]

/-- The function `deductCredits(userId, cost, operation, metadata)`. -/
def deductCredits (db : CreditDb) (userId : String) (cost : Int) (operation : String) :
    Except CreditError Unit × CreditDb :=
  runTransaction db userId (deductCreditsCallback cost operation)

/-- The transaction callback of `awardCredits`. -/
def awardCreditsCallback (amount : Int) (reason : String)
    (doc : Option CreditRecord) : Except CreditError (List TxWrite) :=
  let first : TxWrite := match doc with
    | none => .setBalance { balance := amount, totalEarned := amount, totalSpent := 0 }
    | some _ => .updateBalance (.increment amount) (.increment amount) .keep
  let newBalance : Int := balanceOrZero doc + amount
  .ok [ first,
        .addHistory
          { type := .award, amount := amount, reason := reason,
            balanceAfter := newBalance } ]

/-- The function `awardCredits(userId, amount, reason, metadata)`; it returns
`amount`. -/
def awardCredits (db : CreditDb) (userId : String) (amount : Int) (reason : String) :
    Except CreditError Int × CreditDb :=
  match runTransaction db userId (awardCreditsCallback amount reason) with
  | (.error e, db1) => (.error e, db1)
  | (.ok (), db1) => (.ok amount, db1)

/-- A call of the credit API on one user. -/
inductive CreditCall where
  | balance
  | award (amount : Int) (reason : String)
  | deduct (cost : Int) (operation : String)
  deriving DecidableEq, Repr

/-- The database after one call for `userId`. -/
def CreditCall.run (db : CreditDb) (userId : String) : CreditCall → CreditDb
  | .balance => (getCreditBalance db userId).2
  | .award amount reason => (awardCredits db userId amount reason).2
  | .deduct cost operation => (deductCredits db userId cost operation).2

/-- The database after a sequence of calls for `userId`. -/
def runCalls (db : CreditDb) (userId : String) : List CreditCall → CreditDb
  | [] => db
  | c :: cs => runCalls (c.run db userId) userId cs

/-- The sum of the `amount` fields of a list of transaction records. -/
def sumAmounts (h : List CreditTransaction) : Int :=
  (h.map (fun t => t.amount)).sum

/-- A database in which no user has a balance record or a transaction. -/
def newUserDb : CreditDb :=
  { docs := fun _ => { record := none, history := [] }, accesses := [] }

/-! ## cost-protection.js -/

/-- The instant `new Date(now.getTime() - 60 * 60 * 1000)`. -/
def hourAgo (now : Int) : Int := now - 60 * 60 * 1000

/-- The instant `new Date(now.getTime() - 24 * 60 * 60 * 1000)`. -/
def dayAgo (now : Int) : Int := now - 24 * 60 * 60 * 1000

/-- The day of the month (1 to 31) of the day that is `days` days after 1970-01-01,
in the proleptic Gregorian calendar. -/
def dayOfMonth (days : Int) : Int :=
  let z := days + 719468
  let era := z / 146097
  let doe := z - era * 146097
  let yoe := (doe - doe / 1460 + doe / 36524 - doe / 146096) / 365
  let doy := doe - (365 * yoe + yoe / 4 - yoe / 100)
  let mp := (5 * doy + 2) / 153
  doy - (153 * mp + 2) / 5 + 1

/-- The instant `new Date(now.getFullYear(), now.getMonth(), 1)`: midnight of the
first day of the calendar month of `now`, the process running in UTC. -/
def monthStart (now : Int) : Int :=
  let days := now / 86400000
  (days - (dayOfMonth days - 1)) * 86400000

/-- The value `now.getMinutes()`, the process running in UTC. -/
def getMinutes (now : Int) : Int := (now / 60000) % 60

/-- An entry of `SPENDING_LIMITS.perUser`. -/
structure UserSpendingLimits where
  perHour : ℚ
  perDay : ℚ
  perMonth : ℚ
  deriving DecidableEq, Repr

/-- The entry `SPENDING_LIMITS.perUser.free`. -/
def SPENDING_LIMITS_perUser_free : UserSpendingLimits :=
  { perHour := 0.10, perDay := 0.50, perMonth := 5.00 }

/-- The table `SPENDING_LIMITS.perUser`, looked up by tier name. -/
def SPENDING_LIMITS_perUser : String → Option UserSpendingLimits
  | "free" => some SPENDING_LIMITS_perUser_free
  | "premium" => some { perHour := 0.50, perDay := 5.00, perMonth := 50.00 }
  | "pro" => some { perHour := 2.00, perDay := 20.00, perMonth := 200.00 }
  | "founders" => some { perHour := 5.00, perDay := 50.00, perMonth := 500.00 }
  | _ => none

/-- The constant `SPENDING_LIMITS.global.perHour`. -/
def SPENDING_LIMITS_global_perHour : ℚ := 10.00

/-- The constant `SPENDING_LIMITS.global.perDay`. -/
def SPENDING_LIMITS_global_perDay : ℚ := 100.00

/-- The constant `SPENDING_LIMITS.global.emergency`. -/
def SPENDING_LIMITS_global_emergency : ℚ := 500.00

/-- The table `OPERATION_COSTS`, looked up by operation type. -/
def OPERATION_COSTS : String → Option ℚ
  | "thumbnailAnalysis" => some 0.001
  | "fullImageAnalysis" => some 0.015
  | "progressiveAnalysis" => some 0.008
  | "guidanceFlash" => some 0.001
  | "guidancePro" => some 0.003
  | "dreamAnalysis" => some 0.002
  | "firestoreRead" => some 0.0000001
  | "firestoreWrite" => some 0.0000002
  | _ => none

/-- The expression `OPERATION_COSTS[operationType] || 0.01`. -/
def estimatedCost (operationType : String) : ℚ :=
  match OPERATION_COSTS operationType with
  | some c => if c ≠ 0 then c else 0.01
  | none => 0.01

/-- The document `user_spending/{userId}`. The two alert flags are written by
`checkAndSendAlerts`; a flag that is absent reads as `false`. -/
structure SpendRecord where
  hourly : ℚ
  daily : ℚ
  monthly : ℚ
  lastHourReset : Int
  lastDayReset : Int
  lastMonthReset : Int
  lastOperation : Int
  dailyAlertSent : Bool
  monthlyAlertSent : Bool
  deriving DecidableEq, Repr

/-- The document `_system/global_spending`. -/
structure GlobalSpendRecord where
  hourly : ℚ
  daily : ℚ
  total : ℚ
  lastHourReset : Int
  lastDayReset : Int
  lastOperation : Int
  deriving DecidableEq, Repr

/-- An access to the spend records of the store: a read, or a write (`set` or
`update`), of the record of a user or of the global record. -/
inductive SpendAccess where
  | getUser (userId : String)
  | getGlobal
  | setUser (userId : String)
  | setGlobal
  deriving DecidableEq, Repr

/-- The spend part of the database. `raises a` tells whether the store raises an
error (one that is not an `HttpsError`) on the access `a`. -/
structure SpendDb where
  user : String → Option SpendRecord
  global : Option GlobalSpendRecord
  raises : SpendAccess → Bool

/-- The `HttpsError`s thrown by `checkSpendingLimits`, in the order of their throw
sites, with the values interpolated in their messages (the ceiling, and for the
hourly one the minutes `60 - now.getMinutes()`). -/
inductive SpendError where
  | hourlyLimit (perHour : ℚ) (minutes : Int)
  | dailyLimit (perDay : ℚ)
  | monthlyLimit (perMonth : ℚ)
  | emergencyStop
  | globalHourly
  deriving DecidableEq, Repr

/-- The object `userSpending` after the read: the stored record, or the default one. -/
def userSpendingOf (doc : Option SpendRecord) (now : Int) : SpendRecord :=
  match doc with
  | some r => r
  | none =>
    { hourly := 0, daily := 0, monthly := 0
      lastHourReset := now, lastDayReset := now, lastMonthReset := now
      lastOperation := now, dailyAlertSent := false, monthlyAlertSent := false }

/-- The object `globalSpending` after the read: the stored record, or the default
one. -/
def globalSpendingOf (doc : Option GlobalSpendRecord) (now : Int) : GlobalSpendRecord :=
  match doc with
  | some g => g
  | none =>
    { hourly := 0, daily := 0, total := 0
      lastHourReset := now, lastDayReset := now, lastOperation := now }

/-- The object `userSpending` after the three `Reset counters` statements: a counter
whose window has passed is set to 0; the reset instants are not touched. -/
def userSpendingReset (userSpending : SpendRecord) (now : Int) : SpendRecord :=
  { userSpending with
    hourly := if userSpending.lastHourReset < hourAgo now then 0 else userSpending.hourly
    daily := if userSpending.lastDayReset < dayAgo now then 0 else userSpending.daily
    monthly :=
      if userSpending.lastMonthReset < monthStart now then 0 else userSpending.monthly }

/-- The record passed to `userSpendingRef.set(..., { merge: true })`, from the object
`userSpending` after the resets; the fields the call does not name are kept. -/
def userSpendingWritten (userSpending : SpendRecord) (now : Int) (cost : ℚ) :
    SpendRecord :=
  { userSpending with
    hourly := userSpending.hourly + cost
    daily := userSpending.daily + cost
    monthly := userSpending.monthly + cost
    lastHourReset :=
      if userSpending.lastHourReset < hourAgo now then now else userSpending.lastHourReset
    lastDayReset :=
      if userSpending.lastDayReset < dayAgo now then now else userSpending.lastDayReset
    lastMonthReset :=
      if userSpending.lastMonthReset < monthStart now then now
      else userSpending.lastMonthReset
    lastOperation := now }

/-- The record passed to `globalSpendingRef.set(..., { merge: true })`. -/
def globalSpendingWritten (globalSpending : GlobalSpendRecord) (now : Int) (cost : ℚ) :
    GlobalSpendRecord :=
  { hourly := globalSpending.hourly + cost
    daily := globalSpending.daily + cost
    total := globalSpending.total + cost
    lastHourReset :=
      if globalSpending.lastHourReset < hourAgo now then now
      else globalSpending.lastHourReset
    lastDayReset :=
      if globalSpending.lastDayReset < dayAgo now then now
      else globalSpending.lastDayReset
    lastOperation := now }

/-- The expression `SPENDING_LIMITS.perUser[userTier] || SPENDING_LIMITS.perUser.free`. -/
def userLimitsFor (userTier : String) : UserSpendingLimits :=
  match SPENDING_LIMITS_perUser userTier with
  | some l => l
  | none => SPENDING_LIMITS_perUser_free

/-- The three `Check user limits` statements on the object `userSpending` after the
resets: the error thrown, if one is. -/
def userLimitCheck (userSpending : SpendRecord) (userLimits : UserSpendingLimits)
    (cost : ℚ) (now : Int) : Option SpendError :=
  if userSpending.hourly + cost > userLimits.perHour then
    some (.hourlyLimit userLimits.perHour (60 - getMinutes now))
  else if userSpending.daily + cost > userLimits.perDay then
    some (.dailyLimit userLimits.perDay)
  else if userSpending.monthly + cost > userLimits.perMonth then
    some (.monthlyLimit userLimits.perMonth)
  else none

/-- The two `Check global limits` statements on the object `globalSpending`: the error
thrown, if one is. -/
def globalLimitCheck (globalSpending : GlobalSpendRecord) : Option SpendError :=
  if globalSpending.total ≥ SPENDING_LIMITS_global_emergency then
    some .emergencyStop
  else if globalSpending.hourly ≥ SPENDING_LIMITS_global_perHour then
    some .globalHourly
  else none

/-- The function `checkSpendingLimits(userId, operationType, userTier)` called at the
instant `now`. An error raised by the store is caught and the call returns normally;
an `HttpsError` is thrown again. -/
def checkSpendingLimits (db : SpendDb) (now : Int)
    (userId operationType userTier : String) : Except SpendError Unit × SpendDb :=
  if db.raises (.getUser userId) then (.ok (), db) else
  let userSpending := userSpendingReset (userSpendingOf (db.user userId) now) now
  let userLimits := userLimitsFor userTier
  let cost := estimatedCost operationType
  match userLimitCheck userSpending userLimits cost now with
  | some e => (.error e, db)
  | none =>
  if db.raises .getGlobal then (.ok (), db) else
  let globalSpending := globalSpendingOf db.global now
  match globalLimitCheck globalSpending with
  | some e => (.error e, db)
  | none =>
  if db.raises (.setUser userId) then (.ok (), db) else
  let db1 : SpendDb :=
    { db with
      user := Function.update db.user userId
        (some (userSpendingWritten userSpending now cost)) }
  if db.raises .setGlobal then (.ok (), db1) else
  (.ok (), { db1 with global := some (globalSpendingWritten globalSpending now cost) })

/-- An entry of `RATE_LIMITS`. -/
structure RateLimits where
  identifyPerHour : Int
  identifyPerDay : Int
  guidancePerHour : Int
  guidancePerDay : Int
  deriving DecidableEq, Repr

/-- The entry `RATE_LIMITS.free`. -/
def RATE_LIMITS_free : RateLimits :=
  { identifyPerHour := 3, identifyPerDay := 10, guidancePerHour := 2, guidancePerDay := 5 }

/-- The table `RATE_LIMITS`, looked up by tier name. -/
def RATE_LIMITS : String → Option RateLimits
  | "free" => some RATE_LIMITS_free
  | "premium" => some
    { identifyPerHour := 10, identifyPerDay := 30, guidancePerHour := 8, guidancePerDay := 20 }
  | "pro" => some
    { identifyPerHour := 30, identifyPerDay := 100, guidancePerHour := 20, guidancePerDay := 60 }
  | "founders" => some
    { identifyPerHour := 100, identifyPerDay := 500, guidancePerHour := 50,
      guidancePerDay := 200 }
  | _ => none

/-- The document `rate_limits/{userId}`. -/
structure RateRecord where
  identifyHourly : Int
  identifyDaily : Int
  guidanceHourly : Int
  guidanceDaily : Int
  lastHourReset : Int
  lastDayReset : Int
  lastAction : Int
  deriving DecidableEq, Repr

/-- The rate part of the database: one optional record per user. -/
abbrev RateDb := String → Option RateRecord

/-- The `HttpsError`s thrown by `checkRateLimit`, in the order of their throw sites,
with the values interpolated in their messages. -/
inductive RateError where
  | identifyHourly (perHour : Int) (minutes : Int)
  | identifyDaily (perDay : Int)
  | guidanceHourly (perHour : Int)
  | guidanceDaily (perDay : Int)
  deriving DecidableEq, Repr

/-- The object `rateLimit` after the read: the stored record, or the default one. -/
def rateLimitOf (doc : Option RateRecord) (now : Int) : RateRecord :=
  match doc with
  | some r => r
  | none =>
    { identifyHourly := 0, identifyDaily := 0, guidanceHourly := 0, guidanceDaily := 0
      lastHourReset := now, lastDayReset := now, lastAction := now }

/-- The object `rateLimit` after the two `Reset if needed` statements. -/
def rateLimitReset (rateLimit : RateRecord) (now : Int) : RateRecord :=
  let r1 : RateRecord :=
    if rateLimit.lastHourReset < hourAgo now then
      { rateLimit with identifyHourly := 0, guidanceHourly := 0 }
    else rateLimit
  if r1.lastDayReset < dayAgo now then
    { r1 with identifyDaily := 0, guidanceDaily := 0 }
  else r1

/-- The limit checks of `checkRateLimit` on the object `rateLimit`: the error thrown,
if one is. -/
def rateLimitCheck (rateLimit : RateRecord) (limits : RateLimits) (now : Int)
    (actionType : String) : Option RateError :=
  if actionType = "identify" then
    if rateLimit.identifyHourly ≥ limits.identifyPerHour then
      some (.identifyHourly limits.identifyPerHour (60 - getMinutes now))
    else if rateLimit.identifyDaily ≥ limits.identifyPerDay then
      some (.identifyDaily limits.identifyPerDay)
    else none
  else if actionType = "guidance" then
    if rateLimit.guidanceHourly ≥ limits.guidancePerHour then
      some (.guidanceHourly limits.guidancePerHour)
    else if rateLimit.guidanceDaily ≥ limits.guidancePerDay then
      some (.guidanceDaily limits.guidancePerDay)
    else none
  else none

/-- The record passed to `rateLimitRef.set(..., { merge: true })`, from the object
`rateLimit` after the resets. -/
def rateLimitWritten (rateLimit : RateRecord) (now : Int) (actionType : String) :
    RateRecord :=
  { identifyHourly :=
      if actionType = "identify" then rateLimit.identifyHourly + 1
      else rateLimit.identifyHourly
    identifyDaily :=
      if actionType = "identify" then rateLimit.identifyDaily + 1
      else rateLimit.identifyDaily
    guidanceHourly :=
      if actionType = "guidance" then rateLimit.guidanceHourly + 1
      else rateLimit.guidanceHourly
    guidanceDaily :=
      if actionType = "guidance" then rateLimit.guidanceDaily + 1
      else rateLimit.guidanceDaily
    lastHourReset :=
      if rateLimit.lastHourReset < hourAgo now then now else rateLimit.lastHourReset
    lastDayReset :=
      if rateLimit.lastDayReset < dayAgo now then now else rateLimit.lastDayReset
    lastAction := now }

/-- The expression `RATE_LIMITS[userTier] || RATE_LIMITS.free`. -/
def rateLimitsFor (userTier : String) : RateLimits :=
  match RATE_LIMITS userTier with
  | some l => l
  | none => RATE_LIMITS_free

/-- The function `checkRateLimit(userId, actionType, userTier)` called at the instant
`now`. -/
def checkRateLimit (db : RateDb) (now : Int) (userId actionType userTier : String) :
    Except RateError Unit × RateDb :=
  let rateLimit := rateLimitReset (rateLimitOf (db userId) now) now
  let limits := rateLimitsFor userTier
  match rateLimitCheck rateLimit limits now actionType with
  | some e => (.error e, db)
  | none => (.ok (), Function.update db userId (some (rateLimitWritten rateLimit now actionType)))

/-- The results of calling `checkRateLimit` for one user, action and tier at the
instants `times`, and the database after the last call. -/
def runRateCalls (db : RateDb) (userId actionType userTier : String) :
    List Int → List (Except RateError Unit) × RateDb
  | [] => ([], db)
  | now :: rest =>
    let (r, db1) := checkRateLimit db now userId actionType userTier
    let (rs, db2) := runRateCalls db1 userId actionType userTier rest
    (r :: rs, db2)

/-- The document `request_dedupe/{userId}_{requestHash}`. -/
structure DedupeMarker where
  timestamp : Int
  userId : String
  deriving DecidableEq, Repr

/-- The collection `request_dedupe`: one optional marker per document id. -/
abbrev DedupeDb := String → Option DedupeMarker

/-- The `HttpsError` thrown by `checkDuplicateRequest`, with the number of seconds
interpolated in its message. -/
inductive DedupeError where
  | duplicateRequest (waitSeconds : Int)
  deriving DecidableEq, Repr

/-- The timer set by `setTimeout`: the instant it fires and the document it deletes. -/
structure CleanupTimer where
  fireAt : Int
  docId : String
  deriving DecidableEq, Repr

/-- The document id built by `checkDuplicateRequest`. -/
def dedupeDocId (userId requestHash : String) : String :=
  userId ++ "_" ++ requestHash

/-- The value `ageSeconds` of a marker, in seconds. -/
def ageSeconds (now : Int) (marker : DedupeMarker) : ℚ :=
  ((now - marker.timestamp : Int) : ℚ) / 1000

/-- The function `checkDuplicateRequest(userId, requestHash, windowSeconds)` called at
the instant `now`, the window being a whole number of seconds. It returns the result,
the collection after the call and the clean-up timer it has set, if any. -/
def checkDuplicateRequest (db : DedupeDb) (now : Int) (userId requestHash : String)
    (windowSeconds : Int) : Except DedupeError Unit × DedupeDb × Option CleanupTimer :=
  let docId := dedupeDocId userId requestHash
  let written : DedupeDb :=
    Function.update db docId (some { timestamp := now, userId := userId })
  let timer : CleanupTimer := { fireAt := now + windowSeconds * 1000, docId := docId }
  match db docId with
  | some data =>
    if ageSeconds now data < (windowSeconds : ℚ) then
      (.error (.duplicateRequest ⌈(windowSeconds : ℚ) - ageSeconds now data⌉), db, none)
    else (.ok (), written, some timer)
  | none => (.ok (), written, some timer)

/-- The callback of a clean-up timer: `dedupeRef.delete()`. -/
def CleanupTimer.fire (timer : CleanupTimer) (db : DedupeDb) : DedupeDb :=
  Function.update db timer.docId none

/-- An element of `QueryTracker.queries`. -/
structure QueryEntry where
  operation : String
  collection : String
  timestamp : Int
  deriving DecidableEq, Repr

/-- An object of the class `QueryTracker`. -/
structure QueryTracker where
  queryCount : Int
  maxQueries : Int
  queries : List QueryEntry
  deriving DecidableEq, Repr

/-- The constructor `new QueryTracker(maxQueries)`. -/
def QueryTracker.new (maxQueries : Int) : QueryTracker :=
  { queryCount := 0, maxQueries := maxQueries, queries := [] }

/-- The `HttpsError` thrown by `QueryTracker.track`; the list of the queries made so
far is what the method logs before it throws. -/
inductive QueryError where
  | queryLimitExceeded (queries : List QueryEntry)
  deriving DecidableEq, Repr

/-- The method `track(operation, collection)` called at the instant `now`: the result
and the object after the call. -/
def QueryTracker.track (t : QueryTracker) (operation collection : String) (now : Int) :
    Except QueryError Unit × QueryTracker :=
  let t1 : QueryTracker :=
    { t with
      queryCount := t.queryCount + 1
      queries := t.queries ++
        [{ operation := operation, collection := collection, timestamp := now }] }
  if t1.queryCount > t1.maxQueries then
    (.error (.queryLimitExceeded t1.queries), t1)
  else (.ok (), t1)

/-- The object returned by `getStats()`. -/
structure QueryStats where
  total : Int
  max : Int
  queries : List QueryEntry
  deriving DecidableEq, Repr

/-- The method `getStats()`. -/
def QueryTracker.getStats (t : QueryTracker) : QueryStats :=
  { total := t.queryCount, max := t.maxQueries, queries := t.queries }

/-- An alert logged by `checkAndSendAlerts`: the two user warnings carry the
percentage of the ceiling that is used. -/
inductive SpendAlert where
  | daily (percent : ℚ)
  | monthly (percent : ℚ)
  | globalDaily
  deriving DecidableEq, Repr

/-- The global part of `checkAndSendAlerts`: the alert logged when the global daily
spend is at 80% of its ceiling. -/
def globalAlerts (global : Option GlobalSpendRecord) : List SpendAlert :=
  match global with
  | some g => if g.daily ≥ SPENDING_LIMITS_global_perDay * 0.8 then [.globalDaily] else []
  | none => []

/-- The function `checkAndSendAlerts(userId, userTier)`: the alerts it logs, in order,
and the database after the call. An error raised by the store (on the read of the user
record, on an `update` of it, on the read of the global record) is caught and ends the
call. -/
def checkAndSendAlerts (db : SpendDb) (userId userTier : String) :
    List SpendAlert × SpendDb :=
  if db.raises (.getUser userId) then ([], db) else
  match db.user userId with
  | none => ([], db)
  | some spending =>
    let limits := userLimitsFor userTier
    let dailyPercent := (spending.daily / limits.perDay) * 100
    let monthlyPercent := (spending.monthly / limits.perMonth) * 100
    let dailyFires : Bool := dailyPercent ≥ 80 && !spending.dailyAlertSent
    let monthlyFires : Bool := monthlyPercent ≥ 80 && !spending.monthlyAlertSent
    let alerts1 : List SpendAlert := if dailyFires then [.daily dailyPercent] else []
    if dailyFires && db.raises (.setUser userId) then (alerts1, db) else
    let db1 : SpendDb :=
      if dailyFires then
        { db with
          user := Function.update db.user userId
            ((db.user userId).map fun r => { r with dailyAlertSent := true }) }
      else db
    let alerts2 : List SpendAlert :=
      alerts1 ++ (if monthlyFires then [.monthly monthlyPercent] else [])
    if monthlyFires && db.raises (.setUser userId) then (alerts2, db1) else
    let db2 : SpendDb :=
      if monthlyFires then
        { db1 with
          user := Function.update db1.user userId
            ((db1.user userId).map fun r => { r with monthlyAlertSent := true }) }
      else db1
    if db.raises .getGlobal then (alerts2, db2) else
    (alerts2 ++ globalAlerts db.global, db2)

/-! ## credit-system.js: the tier table -/

/-- An entry of `TIER_LIMITS`; `collectionMax` is `none` for `Infinity`. -/
structure TierLimits where
  collectionMax : Option Nat
  needsCredits : Bool
  deriving DecidableEq, Repr

/-- The entry `TIER_LIMITS.free`. -/
def TIER_LIMITS_free : TierLimits := { collectionMax := some 10, needsCredits := true }

/-- The table `TIER_LIMITS`, looked up by tier name. -/
def TIER_LIMITS : String → Option TierLimits
  | "free" => some TIER_LIMITS_free
  | "premium" => some { collectionMax := some 250, needsCredits := false }
  | "pro" => some { collectionMax := some 1000, needsCredits := false }
  | "founders" => some { collectionMax := none, needsCredits := false }
  | _ => none

/-- The expression `TIER_LIMITS[userTier] || TIER_LIMITS.free` of
`checkCollectionLimit` and `getCollectionStats`. -/
def tierLimitsFor (userTier : String) : TierLimits :=
  match TIER_LIMITS userTier with
  | some l => l
  | none => TIER_LIMITS_free

/-! ## image-preprocessing.js -/

/-- A value of the table `thresholds` of `shouldTriggerProgressiveAnalysis`: a number,
`null`, or `undefined` for a tier name that is not a key of the table. -/
inductive Threshold where
  | number (t : ℚ)
  | null
  | undefined
  deriving DecidableEq, Repr

/-- The table `thresholds`, looked up by tier name. -/
def thresholds : String → Threshold
  | "free" => .null
  | "premium" => .number 0.70
  | "pro" => .number 0.80
  | "founders" => .number 0.85
  | _ => .undefined

/-- The function `shouldTriggerProgressiveAnalysis(confidence, userTier)`; a
comparison with `undefined` is false. -/
def shouldTriggerProgressiveAnalysis (confidence : ℚ) (userTier : String) : Bool :=
  match thresholds userTier with
  | .null => false
  | .number t => confidence < t
  | .undefined => false

/-- The object returned by `getAnalysisStrategy`. -/
structure AnalysisStrategy where
  type : String
  gridSize : String
  model : String
  maxTokens : Nat
  estimatedCost : ℚ
  deriving DecidableEq, Repr

/-- The function `getAnalysisStrategy(userTier, previousConfidence)`;
`previousConfidence` is `none` for `null`, and `none` in the result is `null`. The
test `!previousConfidence` holds for `null` and for the number 0. -/
def getAnalysisStrategy (userTier : String) (previousConfidence : Option ℚ) :
    Option AnalysisStrategy :=
  match (if previousConfidence = some 0 then none else previousConfidence) with
  | none =>
    some
      { type := "initial"
        gridSize :=
          if userTier = "free" then "small"
          else if userTier = "premium" then "medium"
          else if userTier = "pro" then "large" else "full"
        model :=
          if userTier = "pro" ∨ userTier = "founders" then "gemini-1.5-pro"
          else "gemini-1.5-flash"
        maxTokens := 1024
        estimatedCost :=
          if userTier = "free" then 0.001
          else if userTier = "premium" then 0.002
          else if userTier = "pro" then 0.008 else 0.015 }
  | some confidence =>
    if shouldTriggerProgressiveAnalysis confidence userTier then
      if userTier = "free" then none
      else
        some
          { type := "progressive"
            gridSize := if userTier = "premium" then "large" else "full"
            model := "gemini-1.5-pro"
            maxTokens := 1536
            estimatedCost := if userTier = "premium" then 0.008 else 0.015 }
    else none

/-! ## index-ultra-safe.js: the gates of identifyCrystalSafe -/

/-- The three stores the gates of `identifyCrystalSafe` work on. -/
structure GateDb where
  dedupe : DedupeDb
  rate : RateDb
  spend : SpendDb

/-- How the gated part of `identifyCrystalSafe` (protection layers 4 to 7) ends: with
the `HttpsError` of one of the gates, or by going on to the image preprocessing, the
cache and the AI call with an operation type. -/
inductive GateOutcome where
  | duplicateRequest (e : DedupeError)
  | rateLimited (e : RateError)
  | permissionDenied
  | spendLimited (e : SpendError)
  | proceeds (operationType : String)
  deriving DecidableEq, Repr

/-- The operation type `identifyCrystalSafe` asks the spending limits for: the
analysis type is `full` when forced, and the type of the strategy
`getAnalysisStrategy(userTier, null)` otherwise. -/
def gateOperationType (userTier : String) (forceFullAnalysis : Bool) : String :=
  let strategy := getAnalysisStrategy userTier none
  let analysisType : String :=
    if forceFullAnalysis then "full"
    else match strategy with
      | some s => s.type
      | none => ""
  if analysisType = "initial" then "thumbnailAnalysis" else "fullImageAnalysis"

/-- The protection layers 4 to 7 of `identifyCrystalSafe`, for a request of `userId`
on tier `userTier` whose image has the fingerprint `requestHash`, at the instant `now`:
request deduplication (window of 10 seconds), rate limiting, analysis strategy and
permission, spending limits. -/
def identifyCrystalSafeGates (db : GateDb) (now : Int)
    (userId userTier requestHash : String) (forceFullAnalysis : Bool) :
    GateOutcome × GateDb :=
  match checkDuplicateRequest db.dedupe now userId requestHash 10 with
  | (.error e, dedupe1, _) => (.duplicateRequest e, { db with dedupe := dedupe1 })
  | (.ok (), dedupe1, _) =>
    let db1 : GateDb := { db with dedupe := dedupe1 }
    match checkRateLimit db1.rate now userId "identify" userTier with
    | (.error e, rate1) => (.rateLimited e, { db1 with rate := rate1 })
    | (.ok (), rate1) =>
      let db2 : GateDb := { db1 with rate := rate1 }
      if forceFullAnalysis ∧ userTier ≠ "pro" ∧ userTier ≠ "founders" then
        (.permissionDenied, db2)
      else
        let operationType := gateOperationType userTier forceFullAnalysis
        match checkSpendingLimits db2.spend now userId operationType userTier with
        | (.error e, spend1) => (.spendLimited e, { db2 with spend := spend1 })
        | (.ok (), spend1) => (.proceeds operationType, { db2 with spend := spend1 })

/-! ## referral-system.js -/

/-- The constant `REFERRAL_CONFIG.codeLength`. -/
def REFERRAL_CONFIG_codeLength : Nat := 6

/-- The constant `REFERRAL_CONFIG.codePrefix`. -/
def REFERRAL_CONFIG_codePrefix : String := "CG"

/-- The constant `characters` of `generateReferralCode`. -/
def referralCharacters : String := "ABCDEFGHJKLMNPQRSTUVWXYZ23456789"

/-- The method `s.charAt(i)` for an integer `i`: the character at that position as a
string, or the empty string when `i` is not a position of `s`. -/
def charAt (s : String) (i : Int) : String :=
  if 0 ≤ i then
    match s.toList.get? i.toNat with
    | some c => String.singleton c
    | none => ""
  else ""

/-- The function `generateReferralCode()`; `random i` is the value returned by the
call number `i` of `Math.random()`. -/
def generateReferralCode (random : Nat → ℚ) : String :=
  (List.range REFERRAL_CONFIG_codeLength).foldl
    (fun code i =>
      code ++ charAt referralCharacters ⌊random i * (referralCharacters.length : ℚ)⌋)
    REFERRAL_CONFIG_codePrefix

/-! ## streak-system.js -/

/-- The year, month (0 to 11) and day of the month of the day that is `days` days
after 1970-01-01, in the proleptic Gregorian calendar. -/
def civilFromDays (days : Int) : Int × Int × Int :=
  let z := days + 719468
  let era := z / 146097
  let doe := z - era * 146097
  let yoe := (doe - doe / 1460 + doe / 36524 - doe / 146096) / 365
  let doy := doe - (365 * yoe + yoe / 4 - yoe / 100)
  let mp := (5 * doy + 2) / 153
  let d := doy - (153 * mp + 2) / 5 + 1
  let m := if mp < 10 then mp + 3 else mp - 9
  let y := yoe + era * 400 + (if m ≤ 2 then 1 else 0)
  (y, m - 1, d)

/-- The values `getFullYear()`, `getMonth()` and `getDate()` of an instant, the process
running in UTC. -/
def calendarDate (instant : Int) : Int × Int × Int :=
  civilFromDays (instant / 86400000)

/-- The function `isSameDay(date1, date2)`. -/
def isSameDay (date1 date2 : Int) : Bool :=
  (calendarDate date1).1 = (calendarDate date2).1 ∧
  (calendarDate date1).2.1 = (calendarDate date2).2.1 ∧
  (calendarDate date1).2.2 = (calendarDate date2).2.2

/-- The function `getDaysDifference(date1, date2)`; `Math.round(x)` is
`floor(x + 1/2)`. -/
def getDaysDifference (date1 date2 : Int) : Int :=
  let oneDay : ℚ := 24 * 60 * 60 * 1000
  ⌊|((date2 - date1 : Int) : ℚ) / oneDay| + 1 / 2⌋

/-- The expression `STREAK_CONFIG.freezeAvailable[userTier] || 0`. -/
def freezeAvailableFor (userTier : String) : Int :=
  match userTier with
  | "free" => 0
  | "premium" => 3
  | "pro" => 7
  | "founders" => 14
  | _ => 0

/-- An entry of `STREAK_CONFIG.milestones`. -/
structure MilestoneReward where
  credits : Int
  badge : String
  deriving DecidableEq, Repr

/-- The table `STREAK_CONFIG.milestones`, looked up by streak length. -/
def STREAK_CONFIG_milestones (current : Int) : Option MilestoneReward :=
  if current = 7 then some { credits := 5, badge := "week_warrior" }
  else if current = 30 then some { credits := 20, badge := "monthly_mystic" }
  else if current = 90 then some { credits := 50, badge := "season_sage" }
  else if current = 365 then some { credits := 200, badge := "yearly_yogi" }
  else none

/-- The constant `CREDIT_CONFIG.dailyCheckIn`. -/
def CREDIT_CONFIG_dailyCheckIn : Int := 1

/-- The function `getNextMilestone(current)`; `none` is `null`. -/
def getNextMilestone (current : Int) : Option Int :=
  [7, 30, 90, 365].find? (fun m => decide (m > current))

/-- The document `users/{userId}/engagement/streak`; `lastCheckIn` is `none` when the
field is absent. -/
structure StreakRecord where
  current : Int
  longest : Int
  lastCheckIn : Option Int
  freezesRemaining : Int
  totalCheckIns : Int
  tier : String
  deriving DecidableEq, Repr

/-- The streak documents: one optional record per user. -/
abbrev StreakDb := String → Option StreakRecord

/-- The `HttpsError` thrown by `dailyCheckIn`. -/
inductive StreakError where
  | alreadyCheckedIn
  deriving DecidableEq, Repr

/-- The object returned by `dailyCheckIn`. -/
structure CheckInResult where
  current : Int
  longest : Int
  dailyCredits : Int
  bonusCredits : Int
  totalCredits : Int
  badge : Option String
  isMilestone : Bool
  freezesRemaining : Int
  nextMilestone : Option Int
  deriving DecidableEq, Repr

/-- The streak length and the freezes left after a check-in at `now`, for a stored
record whose last check-in `lastCheckIn` was on another day. -/
def nextStreak (current freezesRemaining lastCheckIn now : Int) : Int × Int :=
  let daysSinceLastCheckIn := getDaysDifference lastCheckIn now
  if daysSinceLastCheckIn = 1 then (current + 1, freezesRemaining)
  else if daysSinceLastCheckIn = 2 ∧ freezesRemaining > 0 then
    (current + 1, freezesRemaining - 1)
  else (1, freezesRemaining)

/-- The test `lastCheckIn && isSameDay(lastCheckIn, now)` of `dailyCheckIn` on the
document read. -/
def checkedInToday (doc : Option StreakRecord) (now : Int) : Bool :=
  match doc with
  | some data =>
    match data.lastCheckIn with
    | some lastCheckIn => isSameDay lastCheckIn now
    | none => false
  | none => false

/-- The values of `current` and `freezesRemaining` that `dailyCheckIn` computes from
the document read, when it does not throw. -/
def streakAfter (doc : Option StreakRecord) (now : Int) (userTier : String) : Int × Int :=
  match doc with
  | some data =>
    match data.lastCheckIn with
    | some lastCheckIn => nextStreak data.current data.freezesRemaining lastCheckIn now
    | none => (1, data.freezesRemaining)
  | none => (1, freezeAvailableFor userTier)

/-- The function `dailyCheckIn(userId, userTier)` called at the instant `now`: its
transaction reads the streak record and either throws, writing nothing, or writes the
record and returns the result. -/
def dailyCheckIn (db : StreakDb) (now : Int) (userId userTier : String) :
    Except StreakError CheckInResult × StreakDb :=
  if checkedInToday (db userId) now then (.error .alreadyCheckedIn, db)
  else
    let longest0 : Int := match db userId with
      | some data => data.longest
      | none => 0
    let totalCheckIns0 : Int := match db userId with
      | some data => data.totalCheckIns
      | none => 0
    let current := (streakAfter (db userId) now userTier).1
    let freezesRemaining := (streakAfter (db userId) now userTier).2
    let longest := max longest0 current
    let written : StreakRecord :=
      { current := current, longest := longest, lastCheckIn := some now
        freezesRemaining := freezesRemaining, totalCheckIns := totalCheckIns0 + 1
        tier := userTier }
    let milestoneReward := STREAK_CONFIG_milestones current
    let bonusCredits : Int := match milestoneReward with
      | some r => r.credits
      | none => 0
    (.ok
      { current := current, longest := longest
        dailyCredits := CREDIT_CONFIG_dailyCheckIn, bonusCredits := bonusCredits
        totalCredits := CREDIT_CONFIG_dailyCheckIn + bonusCredits
        badge := milestoneReward.map (fun r => r.badge)
        isMilestone := milestoneReward.isSome
        freezesRemaining := freezesRemaining
        nextMilestone := getNextMilestone current },
      Function.update db userId (some written))

/-! ## achievement-system.js -/

/-- An entry of `ACHIEVEMENTS`, with the fields the code reads (`description`, `icon`,
`category` and `requirement` are display data). -/
structure Achievement where
  id : String
  name : String
  credits : Int
  badge : String
  deriving DecidableEq, Repr

/-- The table `ACHIEVEMENTS`, looked up by achievement id. -/
def ACHIEVEMENTS : String → Option Achievement
  | "first_identification" => some
    { id := "first_identification", name := "First Discovery", credits := 2, badge := "novice_seeker" }
  | "first_guidance" => some
    { id := "first_guidance", name := "Seeking Wisdom", credits := 2, badge := "wisdom_seeker" }
  | "first_dream" => some
    { id := "first_dream", name := "Dream Walker", credits := 3, badge := "dream_walker" }
  | "first_share" => some
    { id := "first_share", name := "Crystal Sharer", credits := 2, badge := "social_crystal" }
  | "complete_profile" => some
    { id := "complete_profile", name := "Profile Complete", credits := 5, badge := "profile_master" }
  | "setup_birth_chart" => some
    { id := "setup_birth_chart", name := "Cosmic Navigator", credits := 10, badge := "astro_mystic" }
  | "collect_10" => some
    { id := "collect_10", name := "Crystal Collector", credits := 5, badge := "collector_bronze" }
  | "collect_25" => some
    { id := "collect_25", name := "Crystal Enthusiast", credits := 10, badge := "collector_silver" }
  | "collect_50" => some
    { id := "collect_50", name := "Crystal Master", credits := 20, badge := "collector_gold" }
  | "collect_100" => some
    { id := "collect_100", name := "Crystal Sage", credits := 50, badge := "collector_platinum" }
  | "identify_10" => some
    { id := "identify_10", name := "Novice Identifier", credits := 5, badge := "identifier_novice" }
  | "identify_50" => some
    { id := "identify_50", name := "Expert Identifier", credits := 20, badge := "identifier_expert" }
  | "refer_1" => some
    { id := "refer_1", name := "Friend Finder", credits := 10, badge := "friend_finder" }
  | "refer_5" => some
    { id := "refer_5", name := "Crystal Ambassador", credits := 50, badge := "ambassador" }
  | "refer_20" => some
    { id := "refer_20", name := "Community Builder", credits := 200, badge := "community_builder" }
  | "login_7_days" => some
    { id := "login_7_days", name := "Week Warrior", credits := 5, badge := "week_warrior" }
  | "login_30_days" => some
    { id := "login_30_days", name := "Monthly Mystic", credits := 20, badge := "monthly_mystic" }
  | "login_365_days" => some
    { id := "login_365_days", name := "Yearly Yogi", credits := 200, badge := "yearly_yogi" }
  | _ => none

/-- The documents `checkAchievement` works on: the achievements earned, per user and
achievement id, the credit ledger, and the badges awarded, per user and badge id. -/
structure GamificationDb where
  achievements : String → String → Bool
  credits : CreditDb
  badges : String → String → Bool

/-- The function `awardBadge(userId, badgeId, metadata)`. -/
def awardBadge (badges : String → String → Bool) (userId badgeId : String) :
    String → String → Bool :=
  Function.update badges userId (Function.update (badges userId) badgeId true)

/-- The function `checkAchievement(userId, achievementId, metadata)` called at the
instant `now`: the achievement returned with its `earnedAt`, or `none` for `null`, and
the documents after the call. -/
def checkAchievement (db : GamificationDb) (now : Int) (userId achievementId : String) :
    Option (Achievement × Int) × GamificationDb :=
  match ACHIEVEMENTS achievementId with
  | none => (none, db)
  | some achievement =>
    if db.achievements userId achievementId then (none, db)
    else
      let achievements1 :=
        Function.update db.achievements userId
          (Function.update (db.achievements userId) achievementId true)
      let credits1 :=
        if achievement.credits > 0 then
          (awardCredits db.credits userId achievement.credits
            ("achievement_" ++ achievementId)).2
        else db.credits
      let badges1 :=
        if achievement.badge ≠ "" then awardBadge db.badges userId achievement.badge
        else db.badges
      (some (achievement, now),
        { achievements := achievements1, credits := credits1, badges := badges1 })

/-! ## Notions used to state the properties -/

/-- The invariant `balance == totalEarned - totalSpent` of a balance document, when
the document exists. -/
def Consistent (l : Ledger) : Prop :=
  ∀ r, l.record = some r → r.balance = r.totalEarned - r.totalSpent

/-- The stored balance, when the balance document exists, is not negative. -/
def NonNegative (l : Ledger) : Prop :=
  ∀ r, l.record = some r → 0 ≤ r.balance

/-- A call is a `deductCredits` call with a positive amount. -/
def CreditCall.isPositiveDeduct : CreditCall → Prop
  | .deduct cost _ => 0 < cost
  | _ => False

/-- The hourly counter of an action type in a rate record. -/
def RateRecord.hourlyOf (r : RateRecord) (actionType : String) : Int :=
  if actionType = "identify" then r.identifyHourly else r.guidanceHourly

/-- The daily counter of an action type in a rate record. -/
def RateRecord.dailyOf (r : RateRecord) (actionType : String) : Int :=
  if actionType = "identify" then r.identifyDaily else r.guidanceDaily

/-- The hourly ceiling of an action type in an entry of `RATE_LIMITS`. -/
def RateLimits.perHourOf (l : RateLimits) (actionType : String) : Int :=
  if actionType = "identify" then l.identifyPerHour else l.guidancePerHour

/-- The daily ceiling of an action type in an entry of `RATE_LIMITS`. -/
def RateLimits.perDayOf (l : RateLimits) (actionType : String) : Int :=
  if actionType = "identify" then l.identifyPerDay else l.guidancePerDay

/-- A rate database in which every user has used the three hourly identifications of
the free tier, in the window opened at instant 0. -/
def exhaustedRateDb : RateDb := fun _ =>
  some
    { identifyHourly := 3, identifyDaily := 3, guidanceHourly := 0, guidanceDaily := 0
      lastHourReset := 0, lastDayReset := 0, lastAction := 0 }

/-- A spend database with no user record, whose store never raises, and whose global
record was last reset at instant 0 with hourly, daily and total spend `spent`. -/
def staleGlobalDb (spent : ℚ) : SpendDb :=
  { user := fun _ => none
    global := some
      { hourly := spent, daily := spent, total := spent
        lastHourReset := 0, lastDayReset := 0, lastOperation := 0 }
    raises := fun _ => false }

/-- A spend database whose store never raises, with no global record, in which every
user has a record opened at instant 0. -/
def staleUserDb : SpendDb :=
  { user := fun _ => some
      { hourly := 0.09, daily := 0.4, monthly := 1
        lastHourReset := 0, lastDayReset := 0, lastMonthReset := 0
        lastOperation := 0, dailyAlertSent := false, monthlyAlertSent := false }
    global := none
    raises := fun _ => false }

/-- Three days after instant 0, in milliseconds. -/
def threeDaysLater : Int := 3 * 24 * 60 * 60 * 1000

/-- A database in which every user has the balance record `r` and no transaction. -/
def dbWithRecord (r : CreditRecord) : CreditDb :=
  { docs := fun _ => { record := some r, history := [] }, accesses := [] }

/-- A spend database whose store never raises, with no user record, and whose global
record, opened at instant 0, has a daily spend of 150, over the daily ceiling of 100,
an hourly spend of 1 and a lifetime total of 150. -/
def dailyCeilingDb : SpendDb :=
  { user := fun _ => none
    global := some
      { hourly := 1, daily := 150, total := 150
        lastHourReset := 0, lastDayReset := 0, lastOperation := 0 }
    raises := fun _ => false }

/-- The spend database `staleUserDb` behind a store that raises on every access. -/
def unreachableStoreDb : SpendDb :=
  { staleUserDb with raises := fun _ => true }

/-- A dedupe collection in which every document is a marker written at instant 0. -/
def markedDb : DedupeDb := fun _ => some { timestamp := 0, userId := "u" }

/-- The results of calling `track` once for each entry of a list, with the operation,
collection and instant of the entry, and the tracker after the last call. -/
def trackAll (t : QueryTracker) : List QueryEntry → List (Except QueryError Unit) × QueryTracker
  | [] => ([], t)
  | q :: rest =>
    let (r, t1) := t.track q.operation q.collection q.timestamp
    let (rs, t2) := trackAll t1 rest
    (r :: rs, t2)

/-- A call of the spend governor for one user: `checkSpendingLimits` at an instant, or
`checkAndSendAlerts`. -/
inductive SpendCall where
  | check (now : Int) (operationType userTier : String)
  | alerts (userTier : String)
  deriving DecidableEq, Repr

/-- The alerts logged by a sequence of calls for `userId`, in order, and the database
after the last call. -/
def runSpendCalls (db : SpendDb) (userId : String) : List SpendCall → List SpendAlert × SpendDb
  | [] => ([], db)
  | .check now operationType userTier :: rest =>
    runSpendCalls (checkSpendingLimits db now userId operationType userTier).2 userId rest
  | .alerts userTier :: rest =>
    let (a, db1) := checkAndSendAlerts db userId userTier
    let (as, db2) := runSpendCalls db1 userId rest
    (a ++ as, db2)

/-- A spend record of a free user at 82% of the daily ceiling, in the daily window
opened at the instant `opened`, with the daily alert flag `sent`. -/
def recordAt82Percent (opened : Int) (sent : Bool) : SpendRecord :=
  { hourly := 0.01, daily := 0.41, monthly := 0.41
    lastHourReset := opened, lastDayReset := opened, lastMonthReset := 0
    lastOperation := opened, dailyAlertSent := sent, monthlyAlertSent := false }

/-- A spend database whose store never raises, with no global record, in which every
user has the record `r`. -/
def spendDbWith (r : SpendRecord) : SpendDb :=
  { user := fun _ => some r, global := none, raises := fun _ => false }

/-- A rate database in which every user has used the three hourly identifications of
the free tier, in the window opened at the instant `opened`. -/
def exhaustedRateDbAt (opened : Int) : RateDb := fun _ =>
  some
    { identifyHourly := 3, identifyDaily := 3, guidanceHourly := 0, guidanceDaily := 0
      lastHourReset := opened, lastDayReset := opened, lastAction := opened }

/-- A spend record of a free user who has spent the whole hourly ceiling of 0.10 in
the window opened at the instant `opened`. -/
def recordAtHourlyCeiling (opened : Int) : SpendRecord :=
  { hourly := 0.10, daily := 0.10, monthly := 0.10
    lastHourReset := opened, lastDayReset := opened, lastMonthReset := 0
    lastOperation := opened, dailyAlertSent := false, monthlyAlertSent := false }

/-- The instant `m` minutes after instant 0, in milliseconds. -/
def minutes (m : Int) : Int := m * 60 * 1000

/-- The stores of a user who is over the hourly rate limit of the free tier and has a
dedupe marker written at instant 0 for every fingerprint. -/
def limitedAndMarkedDb : GateDb :=
  { dedupe := markedDb, rate := exhaustedRateDb, spend := staleGlobalDb 0 }

/-- The stores of a user who is over the hourly rate limit of the free tier and has no
dedupe marker. -/
def limitedDb : GateDb :=
  { dedupe := fun _ => none, rate := exhaustedRateDb, spend := staleGlobalDb 0 }

/-- A streak database in which every user has a streak of 5 days, `freezes` streak
freezes, and a last check-in at the instant `lastCheckIn`. -/
def streakDbAt (lastCheckIn : Int) (freezes : Int) : StreakDb := fun _ =>
  some
    { current := 5, longest := 5, lastCheckIn := some lastCheckIn
      freezesRemaining := freezes, totalCheckIns := 5, tier := "free" }

/-- The instant `h` hours and `m` minutes into the day number `day` (day 0 is
1970-01-01), in milliseconds. -/
def instantOf (day h m : Int) : Int := ((day * 24 + h) * 60 + m) * 60 * 1000

/-- The documents after a sequence of `checkAchievement` calls for `userId`, each
with its achievement id and instant. -/
def runAchievements (db : GamificationDb) (userId : String) :
    List (String × Int) → GamificationDb
  | [] => db
  | (achievementId, now) :: rest =>
    runAchievements (checkAchievement db now userId achievementId).2 userId rest

/-- The documents of a user base in which nobody has earned an achievement, a badge or
a credit. -/
def newGamificationDb : GamificationDb :=
  { achievements := fun _ _ => false, credits := newUserDb, badges := fun _ _ => false }

/-- The results and the documents after `n` calls `deductCredits(userId, 1, operation)`
made one after another, each transaction committed before the next call starts. -/
def deductSerially (db : CreditDb) (userId operation : String) :
    Nat → List (Except CreditError Unit) × CreditDb
  | 0 => ([], db)
  | n + 1 =>
    let r := deductCredits db userId 1 operation
    let rest := deductSerially r.2 userId operation n
    (r.1 :: rest.1, rest.2)

/-- The streak records after a sequence of `dailyCheckIn` calls, each with its
instant, user and tier. -/
def runCheckIns (db : StreakDb) : List (Int × String × String) → StreakDb
  | [] => db
  | (now, userId, userTier) :: rest =>
    runCheckIns (dailyCheckIn db now userId userTier).2 rest

/-! ## Properties -/

/-! ### The credit ledger -/

/-- What `deductCredits` does, by cases on the check. -/
theorem deductCredits_eq (db : CreditDb) (userId : String) (cost : Int)
    (operation : String) :
    deductCredits db userId cost operation =
      if balanceOrZero (db.docs userId).record < cost then
        (.error (.insufficientCredits cost (balanceOrZero (db.docs userId).record)),
          { db with accesses := db.accesses ++ [.read userId] })
      else
        match (db.docs userId).record with
        | none => (.error .notFound, { db with accesses := db.accesses ++ [.read userId] })
        | some r =>
          (.ok (),
            { docs := Function.update db.docs userId
                { record := some
                    { balance := r.balance - cost
                      totalEarned := r.totalEarned
                      totalSpent := r.totalSpent + cost }
                  history := (db.docs userId).history ++
                    [{ type := .deduction, amount := -cost, reason := operation,
                       balanceAfter := r.balance - cost }] }
              accesses := db.accesses ++ [.read userId] ++ [.write userId] }) := by
  unfold deductCredits runTransaction deductCreditsCallback
  by_cases h : balanceOrZero (db.docs userId).record < cost
  · simp [h]
  · rcases hr : (db.docs userId).record with _ | r
    · rw [hr] at h
      simp [hr, h, applyWrites, applyWrite]
    · rw [hr] at h
      simp [hr, h, applyWrites, applyWrite, FieldOp.apply]
      simp [balanceOrZero]

/-- The documents of `userId` after `deductCredits`. -/
theorem docs_deductCredits (db : CreditDb) (userId : String) (cost : Int)
    (operation : String) :
    (deductCredits db userId cost operation).2.docs userId =
      match (db.docs userId).record with
      | none => db.docs userId
      | some r =>
        if r.balance < cost then db.docs userId
        else
          { record := some
              { balance := r.balance - cost
                totalEarned := r.totalEarned
                totalSpent := r.totalSpent + cost }
            history := (db.docs userId).history ++
              [{ type := .deduction, amount := -cost, reason := operation,
                 balanceAfter := r.balance - cost }] } := by
  rw [deductCredits_eq]
  cases hr : (db.docs userId).record with
  | none => by_cases h : (0 : Int) < cost <;> simp [balanceOrZero, h]
  | some r => by_cases h : r.balance < cost <;> simp [balanceOrZero, h]

/-- The documents of `userId` after `awardCredits`. -/
theorem docs_awardCredits (db : CreditDb) (userId : String) (amount : Int)
    (reason : String) :
    (awardCredits db userId amount reason).2.docs userId =
      { record := some
          (match (db.docs userId).record with
           | none => { balance := amount, totalEarned := amount, totalSpent := 0 }
           | some r =>
             { balance := r.balance + amount
               totalEarned := r.totalEarned + amount
               totalSpent := r.totalSpent })
        history := (db.docs userId).history ++
          [{ type := .award, amount := amount, reason := reason,
             balanceAfter := balanceOrZero (db.docs userId).record + amount }] } := by
  unfold awardCredits runTransaction awardCreditsCallback
  rcases hr : (db.docs userId).record with _ | r
  · simp [hr, applyWrites, applyWrite, balanceOrZero]
  · simp [hr, applyWrites, applyWrite, balanceOrZero, FieldOp.apply]

/-- The documents of `userId` after `getCreditBalance`. -/
theorem docs_getCreditBalance (db : CreditDb) (userId : String) :
    (getCreditBalance db userId).2.docs userId =
      match (db.docs userId).record with
      | none =>
        { record := some
            { balance := CREDIT_CONFIG_signup
              totalEarned := CREDIT_CONFIG_signup
              totalSpent := 0 }
          history := (db.docs userId).history }
      | some _ => db.docs userId := by
  unfold getCreditBalance
  rcases hr : (db.docs userId).record with _ | r
  · simp [hr]
  · simp [hr]

/-- One call keeps the invariant `balance == totalEarned - totalSpent`. -/
theorem consistent_run (db : CreditDb) (userId : String) (c : CreditCall)
    (h : Consistent (db.docs userId)) : Consistent ((c.run db userId).docs userId) := by
  cases c with
  | balance =>
    simp only [CreditCall.run, docs_getCreditBalance]
    cases hr : (db.docs userId).record with
    | none =>
      intro r hr1
      simp only [Option.some.injEq] at hr1
      subst hr1
      simp
    | some r => exact h
  | award amount reason =>
    simp only [CreditCall.run, docs_awardCredits]
    cases hr : (db.docs userId).record with
    | none =>
      intro r hr1
      simp only [Option.some.injEq] at hr1
      subst hr1
      simp
    | some r0 =>
      intro r hr1
      simp only [Option.some.injEq] at hr1
      subst hr1
      have := h r0 hr
      simp only
      omega
  | deduct cost operation =>
    simp only [CreditCall.run, docs_deductCredits]
    cases hr : (db.docs userId).record with
    | none => exact h
    | some r0 =>
      by_cases hc : r0.balance < cost
      · simpa [hc] using h
      · intro r hr1
        simp only [hc, if_false, Option.some.injEq] at hr1
        subst hr1
        have := h r0 hr
        simp only
        omega

/-- A sequence of calls keeps the invariant `balance == totalEarned - totalSpent`. -/
theorem consistent_runCalls (userId : String) (calls : List CreditCall) :
    ∀ db : CreditDb, Consistent (db.docs userId) →
      Consistent ((runCalls db userId calls).docs userId) := by
  induction calls with
  | nil => intro db h; exact h
  | cons c cs ih => intro db h; exact ih _ (consistent_run db userId c h)

/-- One `deductCredits` call with a positive amount keeps the balance non-negative. -/
theorem nonNegative_deduct (db : CreditDb) (userId : String) (cost : Int)
    (operation : String) (h : NonNegative (db.docs userId)) :
    NonNegative ((deductCredits db userId cost operation).2.docs userId) := by
  rw [docs_deductCredits]
  cases hr : (db.docs userId).record with
  | none => exact h
  | some r0 =>
    by_cases hc : r0.balance < cost
    · simpa [hc] using h
    · intro r hr1
      simp only [hc, if_false, Option.some.injEq] at hr1
      subst hr1
      simp only
      omega

/-- A sequence of `deductCredits` calls with positive amounts keeps the balance
non-negative. -/
theorem nonNegative_runCalls (userId : String) (calls : List CreditCall) :
    ∀ db : CreditDb, (∀ c ∈ calls, c.isPositiveDeduct) → NonNegative (db.docs userId) →
      NonNegative ((runCalls db userId calls).docs userId) := by
  induction calls with
  | nil => intro db _ h; exact h
  | cons c cs ih =>
    intro db hc h
    have hc0 := hc c (List.mem_cons_self c cs)
    cases c with
    | balance => exact absurd hc0 (by simp [CreditCall.isPositiveDeduct])
    | award amount reason => exact absurd hc0 (by simp [CreditCall.isPositiveDeduct])
    | deduct cost operation =>
      exact ih _ (fun c1 h1 => hc c1 (List.mem_cons_of_mem _ h1))
        (nonNegative_deduct db userId cost operation h)

/-! ### Claims on the credit ledger -/

/-- C1. For a stored balance `b` (0 when the balance record is missing) and an amount
`a > 0`, `deductCredits` fails with the insufficient-credits error exactly when
`b < a`; otherwise it succeeds and writes the balance `b - a`, which is `>= 0`; and
no sequence of `deductCredits` calls with positive amounts makes a non-negative
balance negative. -/
theorem deductCredits_fails_iff_balance_lt (db : CreditDb) (userId : String) (a : Int)
    (operation : String) (ha : 0 < a) :
    ((deductCredits db userId a operation).1 =
        .error (.insufficientCredits a (balanceOrZero (db.docs userId).record)) ↔
      balanceOrZero (db.docs userId).record < a) ∧
    (¬ balanceOrZero (db.docs userId).record < a →
      (deductCredits db userId a operation).1 = .ok () ∧
      ∃ r, ((deductCredits db userId a operation).2.docs userId).record = some r ∧
        r.balance = balanceOrZero (db.docs userId).record - a ∧ 0 ≤ r.balance) ∧
    (∀ calls : List CreditCall, (∀ c ∈ calls, c.isPositiveDeduct) →
      NonNegative (db.docs userId) →
      NonNegative ((runCalls db userId calls).docs userId)) := by
  refine ⟨?_, ?_, fun calls hc h => nonNegative_runCalls userId calls db hc h⟩
  · rw [deductCredits_eq]
    by_cases h : balanceOrZero (db.docs userId).record < a
    · simp [h]
    · rcases hr : (db.docs userId).record with _ | r
      · simp [hr, balanceOrZero] at h ⊢
        omega
      · rw [hr] at h
        simp [h]
  · intro h
    rw [deductCredits_eq]
    rcases hr : (db.docs userId).record with _ | r
    · rw [hr] at h
      simp only [balanceOrZero] at h
      omega
    · rw [hr] at h
      simp only [balanceOrZero] at h
      simp [hr, h, balanceOrZero, Function.update_same]
      omega

/-- C1, at a concrete input: balance 5, amount 2. -/
theorem deductCredits_fails_iff_balance_lt_witness :
    (0 : Int) < 2 ∧
    (deductCredits (dbWithRecord { balance := 5, totalEarned := 5, totalSpent := 0 })
      "u" 2 "crystal_identification").1 = .ok () :=
  ⟨by decide,
    ((deductCredits_fails_iff_balance_lt
      (dbWithRecord { balance := 5, totalEarned := 5, totalSpent := 0 })
      "u" 2 "crystal_identification" (by decide)).2.1 (by decide)).1⟩

/-- C2. Starting from no balance record, after every call of a sequence of
`getCreditBalance`, `awardCredits` and `deductCredits` calls (whatever the amounts,
so also for positive ones) the stored record, when there is one, satisfies
`balance == totalEarned - totalSpent`. -/
theorem balance_eq_earned_sub_spent (db : CreditDb) (userId : String)
    (calls : List CreditCall) (h : (db.docs userId).record = none) (n : Nat) :
    Consistent ((runCalls db userId (calls.take n)).docs userId) := by
  apply consistent_runCalls
  intro r hr
  rw [h] at hr
  cases hr

/-- C2, at a concrete sequence of three calls. -/
theorem balance_eq_earned_sub_spent_witness :
    (newUserDb.docs "u").record = none ∧
    Consistent ((runCalls newUserDb "u"
      ([CreditCall.balance, .award 3 "daily_checkin",
        .deduct 1 "crystal_identification"].take 3)).docs "u") :=
  ⟨rfl, balance_eq_earned_sub_spent newUserDb "u"
    [CreditCall.balance, .award 3 "daily_checkin", .deduct 1 "crystal_identification"]
    rfl 3⟩
/-- One call keeps the equation "stored balance = signup grant + sum of the
transaction amounts" once the record exists and satisfies it. -/
theorem conservation_run (db : CreditDb) (userId : String) (c : CreditCall)
    (h : ∃ r, (db.docs userId).record = some r ∧
      sumAmounts (db.docs userId).history + CREDIT_CONFIG_signup = r.balance) :
    ∃ r, ((c.run db userId).docs userId).record = some r ∧
      sumAmounts ((c.run db userId).docs userId).history + CREDIT_CONFIG_signup =
        r.balance := by
  obtain ⟨r0, hr, hs⟩ := h
  cases c with
  | balance =>
    simp only [CreditCall.run, docs_getCreditBalance, hr]
    exact ⟨r0, rfl, hs⟩
  | award amount reason =>
    simp only [CreditCall.run, docs_awardCredits, hr]
    refine ⟨_, rfl, ?_⟩
    simp only [sumAmounts, List.map_append, List.sum_append, List.map_cons, List.map_nil,
      List.sum_cons, List.sum_nil] at hs ⊢
    omega
  | deduct cost operation =>
    simp only [CreditCall.run, docs_deductCredits, hr]
    by_cases hc : r0.balance < cost
    · simp only [hc, if_true, hr]
      exact ⟨r0, rfl, hs⟩
    · simp only [hc, if_false]
      refine ⟨_, rfl, ?_⟩
      simp only [sumAmounts, List.map_append, List.sum_append, List.map_cons, List.map_nil,
        List.sum_cons, List.sum_nil] at hs ⊢
      omega

/-- When `getCreditBalance` is the call that creates the balance record, the stored
balance stays equal to the signup grant plus the sum of the transaction amounts,
whatever calls follow. -/
theorem conservation_after_getCreditBalance (userId : String) (calls : List CreditCall) :
    ∀ db : CreditDb,
      (∃ r, (db.docs userId).record = some r ∧
        sumAmounts (db.docs userId).history + CREDIT_CONFIG_signup = r.balance) →
      ∃ r, ((runCalls db userId calls).docs userId).record = some r ∧
        sumAmounts ((runCalls db userId calls).docs userId).history +
          CREDIT_CONFIG_signup = r.balance := by
  induction calls with
  | nil => intro db h; exact h
  | cons c cs ih => intro db h; exact ih _ (conservation_run db userId c h)

/-- C3, on the code. A new user whose first credit call is `awardCredits` (the
referral bonus of 5) gets a record with balance 5 and one transaction of amount 5:
the signup grant is not part of the balance, and a later `getCreditBalance` returns 5
and leaves balance and history as they are. The sum of the amounts plus the grant is
20, the stored balance 5. -/
theorem awardCredits_first_misses_signup :
    ((runCalls newUserDb "u"
        [.award 5 "referred_signup_bonus", .balance]).docs "u").record =
      some { balance := 5, totalEarned := 5, totalSpent := 0 } ∧
    sumAmounts ((runCalls newUserDb "u"
        [.award 5 "referred_signup_bonus", .balance]).docs "u").history +
      CREDIT_CONFIG_signup = 20 ∧
    (getCreditBalance (runCalls newUserDb "u" [.award 5 "referred_signup_bonus"]) "u").1
      = 5 := by
  refine ⟨?_, ?_, ?_⟩
  · simp [runCalls, CreditCall.run, docs_getCreditBalance, docs_awardCredits, newUserDb]
  · simp [runCalls, CreditCall.run, docs_getCreditBalance, docs_awardCredits, newUserDb,
      sumAmounts, CREDIT_CONFIG_signup]
  · simp [runCalls, CreditCall.run, getCreditBalance, docs_awardCredits, newUserDb]

/-- C4, as stated, fails: after the first `getCreditBalance` of a new user the
transaction history does not hold a transaction of type award, amount 15 and reason
signup; it is empty. -/
theorem getCreditBalance_logs_no_transaction :
    ((getCreditBalance newUserDb "u").2.docs "u").history = [] ∧
    ¬ ∃ t, ((getCreditBalance newUserDb "u").2.docs "u").history = [t] ∧
      t.type = .award ∧ t.amount = 15 ∧ t.reason = "signup" := by
  have h : ((getCreditBalance newUserDb "u").2.docs "u").history = [] := by
    simp [docs_getCreditBalance, newUserDb]
  refine ⟨h, ?_⟩
  rintro ⟨t, ht, -⟩
  rw [h] at ht
  cases ht

/-- C4, amended. For a user with no balance record, `getCreditBalance` returns the
signup grant (15), creates the balance record with balance 15, totalEarned 15 and
totalSpent 0, and writes no transaction record: the history is as it was before the
call. -/
theorem getCreditBalance_first_call (db : CreditDb) (userId : String)
    (h : (db.docs userId).record = none) :
    (getCreditBalance db userId).1 = 15 ∧
    ((getCreditBalance db userId).2.docs userId).record =
      some { balance := 15, totalEarned := 15, totalSpent := 0 } ∧
    ((getCreditBalance db userId).2.docs userId).history = (db.docs userId).history := by
  refine ⟨?_, ?_, ?_⟩
  · simp [getCreditBalance, h, CREDIT_CONFIG_signup]
  · simp [docs_getCreditBalance, h, CREDIT_CONFIG_signup]
  · simp [docs_getCreditBalance, h]

/-- C4 amended, for a new user. -/
theorem getCreditBalance_first_call_witness :
    (newUserDb.docs "u").record = none ∧
    (getCreditBalance newUserDb "u").1 = 15 ∧
    ((getCreditBalance newUserDb "u").2.docs "u").record =
      some { balance := 15, totalEarned := 15, totalSpent := 0 } ∧
    ((getCreditBalance newUserDb "u").2.docs "u").history = (newUserDb.docs "u").history :=
  ⟨rfl, getCreditBalance_first_call newUserDb "u" rfl⟩

/-- C5. A `deductCredits` call that fails with the insufficient-credits error leaves
every document of the credit ledger, so the balance record (balance, totalEarned,
totalSpent) and the transaction history of the user, exactly as before the call. -/
theorem deductCredits_failure_writes_nothing (db : CreditDb) (userId : String)
    (cost : Int) (operation : String) (need have_ : Int)
    (h : (deductCredits db userId cost operation).1 =
      .error (.insufficientCredits need have_)) :
    (deductCredits db userId cost operation).2.docs = db.docs := by
  rw [deductCredits_eq] at h ⊢
  by_cases hc : balanceOrZero (db.docs userId).record < cost
  · simp [hc]
  · rcases hr : (db.docs userId).record with _ | r
    · rw [hr] at hc
      simp [hc]
    · rw [hr] at hc
      simp [hr, hc] at h

/-- C5, at a concrete input: balance 1, cost 2. -/
theorem deductCredits_failure_writes_nothing_witness :
    (deductCredits (dbWithRecord { balance := 1, totalEarned := 15, totalSpent := 14 })
      "u" 2 "dream_analysis").1 = .error (.insufficientCredits 2 1) ∧
    (deductCredits (dbWithRecord { balance := 1, totalEarned := 15, totalSpent := 14 })
      "u" 2 "dream_analysis").2.docs =
      (dbWithRecord { balance := 1, totalEarned := 15, totalSpent := 14 }).docs :=
  ⟨rfl,
    deductCredits_failure_writes_nothing
      (dbWithRecord { balance := 1, totalEarned := 15, totalSpent := 14 })
      "u" 2 "dream_analysis" 2 1 rfl⟩

/-- C6. For the tiers premium, pro and founders, `checkCredits` returns
`hasCredits: true` and the database it was given, trace of ledger accesses included:
it neither reads nor writes the credit ledger, whatever the user, the cost and the
stored balance. For the free tier, with `b` the balance read by `getCreditBalance`
(the stored balance, or the signup grant it creates when there is no record),
`checkCredits` succeeds exactly when `b >= cost` and otherwise raises the
not-enough-credits error. -/
theorem checkCredits_by_tier (db : CreditDb) (userId : String) (cost : Int) :
    checkCredits db userId cost "premium" =
      (.ok { hasCredits := true, balance := .infinity }, db) ∧
    checkCredits db userId cost "pro" =
      (.ok { hasCredits := true, balance := .infinity }, db) ∧
    checkCredits db userId cost "founders" =
      (.ok { hasCredits := true, balance := .infinity }, db) ∧
    (getCreditBalance db userId).1 =
      (match (db.docs userId).record with
       | some r => r.balance
       | none => CREDIT_CONFIG_signup) ∧
    ((checkCredits db userId cost "free").1 =
        .ok { hasCredits := true, balance := .finite (getCreditBalance db userId).1 } ↔
      (getCreditBalance db userId).1 ≥ cost) ∧
    ((checkCredits db userId cost "free").1 =
        .error (.notEnoughCredits cost (getCreditBalance db userId).1) ↔
      ¬ (getCreditBalance db userId).1 ≥ cost) := by
  refine ⟨by simp [checkCredits], by simp [checkCredits], by simp [checkCredits], ?_, ?_, ?_⟩
  · unfold getCreditBalance
    rcases hr : (db.docs userId).record with _ | r
    · simp [hr]
    · by_cases h0 : r.balance = 0 <;> simp [hr, h0]
  · by_cases hc : (getCreditBalance db userId).1 < cost
    · simp [checkCredits, hc]
    · simp [checkCredits, hc]
      omega
  · by_cases hc : (getCreditBalance db userId).1 < cost
    · simp [checkCredits, hc]
    · simp [checkCredits, hc]

/-! ### The rate limiter -/

/-- The results of a sequence of calls: the first call, then the others. -/
theorem runRateCalls_cons (db : RateDb) (userId actionType userTier : String)
    (now : Int) (rest : List Int) :
    (runRateCalls db userId actionType userTier (now :: rest)).1 =
      (checkRateLimit db now userId actionType userTier).1 ::
        (runRateCalls (checkRateLimit db now userId actionType userTier).2
          userId actionType userTier rest).1 := rfl

/-- A rejected `checkRateLimit` returns the database it was given. -/
theorem checkRateLimit_error (db : RateDb) (now : Int) (userId actionType userTier : String)
    (e : RateError) (h : (checkRateLimit db now userId actionType userTier).1 = .error e) :
    (checkRateLimit db now userId actionType userTier).2 = db := by
  unfold checkRateLimit at h ⊢
  dsimp only at h ⊢
  rcases hc : rateLimitCheck (rateLimitReset (rateLimitOf (db userId) now) now)
    (rateLimitsFor userTier) now actionType with _ | e1
  · rw [hc] at h
    cases h
  · rfl

/-- An allowed `checkRateLimit` writes exactly one record, the one computed from the
stored record after the lazy resets. -/
theorem checkRateLimit_ok (db : RateDb) (now : Int) (userId actionType userTier : String)
    (h : (checkRateLimit db now userId actionType userTier).1 = .ok ()) :
    (checkRateLimit db now userId actionType userTier).2 =
      Function.update db userId
        (some (rateLimitWritten (rateLimitReset (rateLimitOf (db userId) now) now)
          now actionType)) := by
  unfold checkRateLimit at h ⊢
  dsimp only at h ⊢
  rcases hc : rateLimitCheck (rateLimitReset (rateLimitOf (db userId) now) now)
    (rateLimitsFor userTier) now actionType with _ | e1
  · rfl
  · rw [hc] at h
    cases h

/-- A call made while neither window of the record has passed: it is allowed exactly
when both counters of the action are below their ceilings. -/
theorem checkRateLimit_in_window (db : RateDb) (now : Int)
    (userId actionType userTier : String) (limits : RateLimits)
    (hTier : RATE_LIMITS userTier = some limits)
    (hAction : actionType = "identify" ∨ actionType = "guidance")
    (hH : hourAgo now ≤ (rateLimitOf (db userId) now).lastHourReset)
    (hD : dayAgo now ≤ (rateLimitOf (db userId) now).lastDayReset) :
    ((rateLimitOf (db userId) now).hourlyOf actionType < limits.perHourOf actionType ∧
      (rateLimitOf (db userId) now).dailyOf actionType < limits.perDayOf actionType →
      checkRateLimit db now userId actionType userTier =
        (.ok (), Function.update db userId
          (some (rateLimitWritten (rateLimitOf (db userId) now) now actionType)))) ∧
    (¬ ((rateLimitOf (db userId) now).hourlyOf actionType < limits.perHourOf actionType ∧
      (rateLimitOf (db userId) now).dailyOf actionType < limits.perDayOf actionType) →
      ∃ e, checkRateLimit db now userId actionType userTier = (.error e, db)) := by
  have hreset : rateLimitReset (rateLimitOf (db userId) now) now =
      rateLimitOf (db userId) now := by
    simp [rateLimitReset, not_lt.mpr hH, not_lt.mpr hD]
  have hlim : rateLimitsFor userTier = limits := by simp [rateLimitsFor, hTier]
  unfold checkRateLimit
  simp only [hreset, hlim]
  rcases hAction with rfl | rfl
  · simp only [RateRecord.hourlyOf, RateRecord.dailyOf, RateLimits.perHourOf,
      RateLimits.perDayOf, rateLimitCheck, if_true]
    constructor
    · rintro ⟨h1, h2⟩
      simp [not_le.mpr h1, not_le.mpr h2]
    · intro h
      by_cases h1 : (rateLimitOf (db userId) now).identifyHourly ≥ limits.identifyPerHour
      · exact ⟨_, by rw [if_pos h1]⟩
      · have h2 : (rateLimitOf (db userId) now).identifyDaily ≥ limits.identifyPerDay := by
          by_contra h2
          exact h ⟨not_le.mp h1, not_le.mp h2⟩
        exact ⟨_, by rw [if_neg h1, if_pos h2]⟩
  · have hne : ¬ ("guidance" = "identify") := by decide
    simp only [RateRecord.hourlyOf, RateRecord.dailyOf, RateLimits.perHourOf,
      RateLimits.perDayOf, rateLimitCheck, hne, if_false, if_true]
    constructor
    · rintro ⟨h1, h2⟩
      simp [not_le.mpr h1, not_le.mpr h2]
    · intro h
      by_cases h1 : (rateLimitOf (db userId) now).guidanceHourly ≥ limits.guidancePerHour
      · exact ⟨_, by rw [if_pos h1]⟩
      · have h2 : (rateLimitOf (db userId) now).guidanceDaily ≥ limits.guidancePerDay := by
          by_contra h2
          exact h ⟨not_le.mp h1, not_le.mp h2⟩
        exact ⟨_, by rw [if_neg h1, if_pos h2]⟩

/-- The record written by a call made while neither window has passed: both counters
of the action are one more, the reset instants are kept. -/
theorem rateLimitWritten_in_window (r : RateRecord) (now : Int) (actionType : String)
    (hAction : actionType = "identify" ∨ actionType = "guidance")
    (hH : hourAgo now ≤ r.lastHourReset) (hD : dayAgo now ≤ r.lastDayReset) :
    (rateLimitWritten r now actionType).hourlyOf actionType = r.hourlyOf actionType + 1 ∧
    (rateLimitWritten r now actionType).dailyOf actionType = r.dailyOf actionType + 1 ∧
    (rateLimitWritten r now actionType).lastHourReset = r.lastHourReset ∧
    (rateLimitWritten r now actionType).lastDayReset = r.lastDayReset := by
  have hne : ¬ ("guidance" = "identify") := by decide
  rcases hAction with rfl | rfl <;>
    simp [rateLimitWritten, RateRecord.hourlyOf, RateRecord.dailyOf, not_lt.mpr hH,
      not_lt.mpr hD, hne]

/-- From a stored record whose two counters of the action are equal and `n` below the
smaller ceiling, `n + 1` calls in the same hour and day give `n` allowed calls and
then a rejected one. -/
theorem runRateCalls_from_record (userId actionType userTier : String)
    (limits : RateLimits) (t0 : Int)
    (hTier : RATE_LIMITS userTier = some limits)
    (hAction : actionType = "identify" ∨ actionType = "guidance") (n : Nat) :
    ∀ (rest : List Int) (db : RateDb) (r : RateRecord),
      db userId = some r → r.lastHourReset = t0 → r.lastDayReset = t0 →
      r.dailyOf actionType = r.hourlyOf actionType →
      r.hourlyOf actionType + n =
        min (limits.perHourOf actionType) (limits.perDayOf actionType) →
      rest.length = n + 1 →
      (∀ t ∈ rest, hourAgo t ≤ t0 ∧ dayAgo t ≤ t0) →
      ∃ e, (runRateCalls db userId actionType userTier rest).1 =
        List.replicate n (.ok ()) ++ [.error e] := by
  induction n with
  | zero =>
    intro rest db r hr hH hD hk hL hlen hwin
    match rest, hlen with
    | [t], _ =>
      have ht := hwin t (List.mem_singleton.mpr rfl)
      have hro : rateLimitOf (db userId) t = r := by simp [rateLimitOf, hr]
      have hstep := (checkRateLimit_in_window db t userId actionType userTier limits hTier
        hAction (by rw [hro, hH]; exact ht.1) (by rw [hro, hD]; exact ht.2)).2
      rw [hro] at hstep
      obtain ⟨e, he⟩ := hstep (by omega)
      exact ⟨e, by simp [runRateCalls_cons, he, runRateCalls]⟩
  | succ n ih =>
    intro rest db r hr hH hD hk hL hlen hwin
    match rest, hlen with
    | t :: ts, hlen =>
      have ht := hwin t (List.mem_cons_self t ts)
      have hro : rateLimitOf (db userId) t = r := by simp [rateLimitOf, hr]
      have hstep := (checkRateLimit_in_window db t userId actionType userTier limits hTier
        hAction (by rw [hro, hH]; exact ht.1) (by rw [hro, hD]; exact ht.2)).1
      rw [hro] at hstep
      have hok := hstep (by omega)
      obtain ⟨w1, w2, w3, w4⟩ := rateLimitWritten_in_window r t actionType hAction
        (by rw [hH]; exact ht.1) (by rw [hD]; exact ht.2)
      obtain ⟨e, he⟩ := ih ts
        (Function.update db userId (some (rateLimitWritten r t actionType)))
        (rateLimitWritten r t actionType) (by simp) (by rw [w3, hH]) (by rw [w4, hD])
        (by rw [w1, w2, hk]) (by rw [w1]; push_cast at hL ⊢; omega)
        (by simpa using hlen)
        (fun t1 h1 => hwin t1 (List.mem_cons_of_mem _ h1))
      refine ⟨e, ?_⟩
      rw [runRateCalls_cons, hok]
      simp only [he]
      rfl
/-- C7. For a tier of `RATE_LIMITS` and an action type (identify or guidance), from a
user with no rate record, with calls at `t0` and then at instants `rest` that pass
neither the hour nor the day boundary of the record created at `t0`: when the number
of calls is `min(perHour, perDay) + 1`, the first `min(perHour, perDay)` calls are
allowed and the next one is rejected. -/
theorem checkRateLimit_ceiling (db : RateDb) (userId actionType userTier : String)
    (limits : RateLimits) (t0 : Int) (rest : List Int)
    (hTier : RATE_LIMITS userTier = some limits)
    (hAction : actionType = "identify" ∨ actionType = "guidance")
    (hNew : db userId = none)
    (hWindow : ∀ t ∈ rest, hourAgo t ≤ t0 ∧ dayAgo t ≤ t0)
    (hLen : (t0 :: rest).length =
      (min (limits.perHourOf actionType) (limits.perDayOf actionType)).toNat + 1) :
    ∃ e, (runRateCalls db userId actionType userTier (t0 :: rest)).1 =
      List.replicate
        (min (limits.perHourOf actionType) (limits.perDayOf actionType)).toNat (.ok ()) ++
        [.error e] := by
  have hro : rateLimitOf (db userId) t0 =
      { identifyHourly := 0, identifyDaily := 0, guidanceHourly := 0, guidanceDaily := 0
        lastHourReset := t0, lastDayReset := t0, lastAction := t0 } := by
    simp [rateLimitOf, hNew]
  have hH0 : hourAgo t0 ≤ (rateLimitOf (db userId) t0).lastHourReset := by
    rw [hro]; simp only [hourAgo]; omega
  have hD0 : dayAgo t0 ≤ (rateLimitOf (db userId) t0).lastDayReset := by
    rw [hro]; simp only [dayAgo]; omega
  have hstep := checkRateLimit_in_window db t0 userId actionType userTier limits hTier
    hAction hH0 hD0
  have hh0 : (rateLimitOf (db userId) t0).hourlyOf actionType = 0 := by
    rw [hro]; simp [RateRecord.hourlyOf]
  have hd0 : (rateLimitOf (db userId) t0).dailyOf actionType = 0 := by
    rw [hro]; simp [RateRecord.dailyOf]
  rw [hh0, hd0] at hstep
  rcases hn : (min (limits.perHourOf actionType) (limits.perDayOf actionType)).toNat
    with _ | n
  · rw [hn] at hLen
    obtain ⟨e, he⟩ := hstep.2 (by omega)
    have hrest : rest = [] := by
      cases rest with
      | nil => rfl
      | cons t ts => simp at hLen
    subst hrest
    exact ⟨e, by simp [runRateCalls_cons, he, runRateCalls]⟩
  · rw [hn] at hLen
    have hok := hstep.1 (by omega)
    obtain ⟨w1, w2, w3, w4⟩ := rateLimitWritten_in_window (rateLimitOf (db userId) t0) t0
      actionType hAction hH0 hD0
    obtain ⟨e, he⟩ := runRateCalls_from_record userId actionType userTier limits t0 hTier
      hAction n rest
      (Function.update db userId
        (some (rateLimitWritten (rateLimitOf (db userId) t0) t0 actionType)))
      (rateLimitWritten (rateLimitOf (db userId) t0) t0 actionType) (by simp)
      (by rw [w3, hro]) (by rw [w4, hro]) (by rw [w1, w2, hh0, hd0])
      (by rw [w1, hh0]; omega) (by simpa using hLen) hWindow
    refine ⟨e, ?_⟩
    rw [runRateCalls_cons, hok]
    simp only [he]
    rfl

/-- C7, for the free tier and identify (`identifyPerHour = 3`): four calls one second
apart yield allowed, allowed, allowed, rejected. -/
theorem checkRateLimit_ceiling_witness :
    (RATE_LIMITS "free" = some RATE_LIMITS_free ∧
      ∀ t ∈ [1000, 2000, 3000], hourAgo t ≤ 0 ∧ dayAgo t ≤ 0) ∧
    ∃ e, (runRateCalls (fun _ => none) "u" "identify" "free" [0, 1000, 2000, 3000]).1 =
      [.ok (), .ok (), .ok (), .error e] :=
  ⟨⟨rfl, by decide⟩,
    checkRateLimit_ceiling (fun _ => none) "u" "identify" "free" RATE_LIMITS_free 0
      [1000, 2000, 3000] rfl (Or.inl rfl) rfl (by decide) (by decide)⟩

/-- C8. A rejected `checkRateLimit` call, whatever the ceiling and the action type,
leaves the rate database as it was: the stored record of the user, with its four
counters and two reset instants, is unchanged. -/
theorem checkRateLimit_rejected_writes_nothing (db : RateDb) (now : Int)
    (userId actionType userTier : String) (e : RateError)
    (h : (checkRateLimit db now userId actionType userTier).1 = .error e) :
    (checkRateLimit db now userId actionType userTier).2 = db ∧
    (checkRateLimit db now userId actionType userTier).2 userId = db userId := by
  have h1 := checkRateLimit_error db now userId actionType userTier e h
  exact ⟨h1, by rw [h1]⟩
/-- C8, at a concrete input: the fourth identification of a free user within the
hour. -/
theorem checkRateLimit_rejected_writes_nothing_witness :
    (checkRateLimit exhaustedRateDb 1000 "u" "identify" "free").1 =
      .error (.identifyHourly 3 60) ∧
    (checkRateLimit exhaustedRateDb 1000 "u" "identify" "free").2 = exhaustedRateDb ∧
    (checkRateLimit exhaustedRateDb 1000 "u" "identify" "free").2 "u" =
      exhaustedRateDb "u" :=
  ⟨rfl, checkRateLimit_rejected_writes_nothing exhaustedRateDb 1000 "u" "identify" "free"
    (.identifyHourly 3 60) rfl⟩

/-! ### The spend governor -/

/-- What `checkSpendingLimits` does, by cases on the store and on the two checks. -/
theorem checkSpendingLimits_eq (db : SpendDb) (now : Int)
    (userId operationType userTier : String) :
    checkSpendingLimits db now userId operationType userTier =
      if db.raises (.getUser userId) = true then (.ok (), db) else
      match userLimitCheck (userSpendingReset (userSpendingOf (db.user userId) now) now)
        (userLimitsFor userTier) (estimatedCost operationType) now with
      | some e => (.error e, db)
      | none =>
        if db.raises .getGlobal = true then (.ok (), db) else
        match globalLimitCheck (globalSpendingOf db.global now) with
        | some e => (.error e, db)
        | none =>
          if db.raises (.setUser userId) = true then (.ok (), db) else
          if db.raises .setGlobal = true then
            (.ok (),
              { db with
                user := Function.update db.user userId
                  (some (userSpendingWritten
                    (userSpendingReset (userSpendingOf (db.user userId) now) now) now
                    (estimatedCost operationType))) })
          else
            (.ok (),
              { user := Function.update db.user userId
                  (some (userSpendingWritten
                    (userSpendingReset (userSpendingOf (db.user userId) now) now) now
                    (estimatedCost operationType)))
                global := some (globalSpendingWritten (globalSpendingOf db.global now) now
                  (estimatedCost operationType))
                raises := db.raises }) := rfl

/-- The user records after `checkSpendingLimits`: untouched, or with the record of
the user replaced by the record computed from the stored one after the lazy resets. -/
theorem checkSpendingLimits_user (db : SpendDb) (now : Int)
    (userId operationType userTier : String) :
    (checkSpendingLimits db now userId operationType userTier).2.user = db.user ∨
    (checkSpendingLimits db now userId operationType userTier).2.user =
      Function.update db.user userId
        (some (userSpendingWritten
          (userSpendingReset (userSpendingOf (db.user userId) now) now) now
          (estimatedCost operationType))) := by
  rw [checkSpendingLimits_eq]
  rcases userLimitCheck (userSpendingReset (userSpendingOf (db.user userId) now) now)
    (userLimitsFor userTier) (estimatedCost operationType) now with _ | e1 <;>
  rcases globalLimitCheck (globalSpendingOf db.global now) with _ | e2 <;>
  rcases db.raises (.getUser userId) <;> rcases db.raises .getGlobal <;>
  rcases db.raises (.setUser userId) <;> rcases db.raises .setGlobal <;>
  first | (left; rfl) | (right; rfl)

/-- An allowed `checkSpendingLimits`, the store raising no error, writes the record of
the user. -/
theorem checkSpendingLimits_ok_user (db : SpendDb) (now : Int)
    (userId operationType userTier : String) (hStore : ∀ a, db.raises a = false)
    (h : (checkSpendingLimits db now userId operationType userTier).1 = .ok ()) :
    (checkSpendingLimits db now userId operationType userTier).2.user =
      Function.update db.user userId
        (some (userSpendingWritten
          (userSpendingReset (userSpendingOf (db.user userId) now) now) now
          (estimatedCost operationType))) := by
  rw [checkSpendingLimits_eq] at h ⊢
  simp only [hStore, Bool.false_eq_true, if_false] at h ⊢
  generalize userLimitCheck (userSpendingReset (userSpendingOf (db.user userId) now) now)
    (userLimitsFor userTier) (estimatedCost operationType) now = uc at h ⊢
  generalize globalLimitCheck (globalSpendingOf db.global now) = gc at h ⊢
  rcases uc with _ | e1
  · rcases gc with _ | e2
    · rfl
    · cases h
  · cases h

/-- A rejected `checkSpendingLimits` returns the database it was given. -/
theorem checkSpendingLimits_error (db : SpendDb) (now : Int)
    (userId operationType userTier : String) (e : SpendError)
    (h : (checkSpendingLimits db now userId operationType userTier).1 = .error e) :
    (checkSpendingLimits db now userId operationType userTier).2 = db := by
  rw [checkSpendingLimits_eq] at h ⊢
  generalize userLimitCheck (userSpendingReset (userSpendingOf (db.user userId) now) now)
    (userLimitsFor userTier) (estimatedCost operationType) now = uc at h ⊢
  generalize globalLimitCheck (globalSpendingOf db.global now) = gc at h ⊢
  generalize db.raises (.getUser userId) = b1 at h ⊢
  generalize db.raises .getGlobal = b2 at h ⊢
  generalize db.raises (.setUser userId) = b3 at h ⊢
  generalize db.raises .setGlobal = b4 at h ⊢
  rcases uc with _ | e1 <;> rcases gc with _ | e2 <;>
  rcases b1 <;> rcases b2 <;> rcases b3 <;> rcases b4 <;>
  first | (cases h; done) | rfl
/-- The record written by `checkRateLimit`, window by window: a counter of the action
whose window has passed is 1 and its reset instant is `now`; otherwise the counter is
one more and the reset instant is kept. -/
theorem rateLimitWritten_lazy (r : RateRecord) (now : Int) (actionType : String)
    (hAction : actionType = "identify" ∨ actionType = "guidance") :
    (rateLimitWritten (rateLimitReset r now) now actionType).hourlyOf actionType =
      (if r.lastHourReset < hourAgo now then 1 else r.hourlyOf actionType + 1) ∧
    (rateLimitWritten (rateLimitReset r now) now actionType).lastHourReset =
      (if r.lastHourReset < hourAgo now then now else r.lastHourReset) ∧
    (rateLimitWritten (rateLimitReset r now) now actionType).dailyOf actionType =
      (if r.lastDayReset < dayAgo now then 1 else r.dailyOf actionType + 1) ∧
    (rateLimitWritten (rateLimitReset r now) now actionType).lastDayReset =
      (if r.lastDayReset < dayAgo now then now else r.lastDayReset) := by
  have hne : ¬ ("guidance" = "identify") := by decide
  rcases hAction with rfl | rfl <;>
  by_cases hH : r.lastHourReset < hourAgo now <;>
  by_cases hD : r.lastDayReset < dayAgo now <;>
  simp [rateLimitWritten, rateLimitReset, RateRecord.hourlyOf, RateRecord.dailyOf, hH, hD,
    hne]

/-- The user record written by `checkSpendingLimits`, window by window: a counter
whose window has passed is the cost and its reset instant is `now`; otherwise the
counter is the old one plus the cost and the reset instant is kept. -/
theorem userSpendingWritten_lazy (u : SpendRecord) (now : Int) (cost : ℚ) :
    (userSpendingWritten (userSpendingReset u now) now cost).hourly =
      (if u.lastHourReset < hourAgo now then cost else u.hourly + cost) ∧
    (userSpendingWritten (userSpendingReset u now) now cost).lastHourReset =
      (if u.lastHourReset < hourAgo now then now else u.lastHourReset) ∧
    (userSpendingWritten (userSpendingReset u now) now cost).daily =
      (if u.lastDayReset < dayAgo now then cost else u.daily + cost) ∧
    (userSpendingWritten (userSpendingReset u now) now cost).lastDayReset =
      (if u.lastDayReset < dayAgo now then now else u.lastDayReset) ∧
    (userSpendingWritten (userSpendingReset u now) now cost).monthly =
      (if u.lastMonthReset < monthStart now then cost else u.monthly + cost) ∧
    (userSpendingWritten (userSpendingReset u now) now cost).lastMonthReset =
      (if u.lastMonthReset < monthStart now then now else u.lastMonthReset) := by
  refine ⟨?_, rfl, ?_, rfl, ?_, rfl⟩
  · by_cases h : u.lastHourReset < hourAgo now <;>
      simp [userSpendingWritten, userSpendingReset, h]
  · by_cases h : u.lastDayReset < dayAgo now <;>
      simp [userSpendingWritten, userSpendingReset, h]
  · by_cases h : u.lastMonthReset < monthStart now <;>
      simp [userSpendingWritten, userSpendingReset, h]

/-- C9. For `checkRateLimit` (action identify or guidance) and for the per-user
counters of `checkSpendingLimits`: the call writes at most one record, and writes it
when the call is allowed (for the spend record: allowed with the store raising no
error). In the record written, a window whose stored (or default) `lastReset` is
older than the window (1 hour, 24 hours, start of the calendar month) has its counter
equal to the current increment (1 request, the estimated cost) and its `lastReset`
equal to `now`; a window that has not passed keeps its `lastReset` and has counter
= old counter + increment. No other record is written, so a reset counter is never
stored without the current increment. -/
theorem lazy_reset_committed_with_increment (rdb : RateDb) (sdb : SpendDb) (now : Int)
    (userId actionType operationType userTier : String)
    (hAction : actionType = "identify" ∨ actionType = "guidance") :
    (∃ w : RateRecord,
      ((checkRateLimit rdb now userId actionType userTier).2 = rdb ∨
        (checkRateLimit rdb now userId actionType userTier).2 =
          Function.update rdb userId (some w)) ∧
      ((checkRateLimit rdb now userId actionType userTier).1 = .ok () →
        (checkRateLimit rdb now userId actionType userTier).2 =
          Function.update rdb userId (some w)) ∧
      w.hourlyOf actionType =
        (if (rateLimitOf (rdb userId) now).lastHourReset < hourAgo now then 1
         else (rateLimitOf (rdb userId) now).hourlyOf actionType + 1) ∧
      w.lastHourReset =
        (if (rateLimitOf (rdb userId) now).lastHourReset < hourAgo now then now
         else (rateLimitOf (rdb userId) now).lastHourReset) ∧
      w.dailyOf actionType =
        (if (rateLimitOf (rdb userId) now).lastDayReset < dayAgo now then 1
         else (rateLimitOf (rdb userId) now).dailyOf actionType + 1) ∧
      w.lastDayReset =
        (if (rateLimitOf (rdb userId) now).lastDayReset < dayAgo now then now
         else (rateLimitOf (rdb userId) now).lastDayReset)) ∧
    (∃ v : SpendRecord,
      ((checkSpendingLimits sdb now userId operationType userTier).2.user = sdb.user ∨
        (checkSpendingLimits sdb now userId operationType userTier).2.user =
          Function.update sdb.user userId (some v)) ∧
      ((∀ a, sdb.raises a = false) →
        (checkSpendingLimits sdb now userId operationType userTier).1 = .ok () →
        (checkSpendingLimits sdb now userId operationType userTier).2.user =
          Function.update sdb.user userId (some v)) ∧
      v.hourly =
        (if (userSpendingOf (sdb.user userId) now).lastHourReset < hourAgo now then
          estimatedCost operationType
         else (userSpendingOf (sdb.user userId) now).hourly + estimatedCost operationType) ∧
      v.lastHourReset =
        (if (userSpendingOf (sdb.user userId) now).lastHourReset < hourAgo now then now
         else (userSpendingOf (sdb.user userId) now).lastHourReset) ∧
      v.daily =
        (if (userSpendingOf (sdb.user userId) now).lastDayReset < dayAgo now then
          estimatedCost operationType
         else (userSpendingOf (sdb.user userId) now).daily + estimatedCost operationType) ∧
      v.lastDayReset =
        (if (userSpendingOf (sdb.user userId) now).lastDayReset < dayAgo now then now
         else (userSpendingOf (sdb.user userId) now).lastDayReset) ∧
      v.monthly =
        (if (userSpendingOf (sdb.user userId) now).lastMonthReset < monthStart now then
          estimatedCost operationType
         else (userSpendingOf (sdb.user userId) now).monthly +
          estimatedCost operationType) ∧
      v.lastMonthReset =
        (if (userSpendingOf (sdb.user userId) now).lastMonthReset < monthStart now then now
         else (userSpendingOf (sdb.user userId) now).lastMonthReset)) := by
  constructor
  · refine ⟨rateLimitWritten (rateLimitReset (rateLimitOf (rdb userId) now) now) now
      actionType, ?_, checkRateLimit_ok rdb now userId actionType userTier,
      rateLimitWritten_lazy _ now actionType hAction⟩
    rcases hres : (checkRateLimit rdb now userId actionType userTier).1 with e | u
    · exact Or.inl (checkRateLimit_error rdb now userId actionType userTier e hres)
    · exact Or.inr (checkRateLimit_ok rdb now userId actionType userTier hres)
  · exact ⟨userSpendingWritten
      (userSpendingReset (userSpendingOf (sdb.user userId) now) now) now
      (estimatedCost operationType),
      checkSpendingLimits_user sdb now userId operationType userTier,
      checkSpendingLimits_ok_user sdb now userId operationType userTier,
      userSpendingWritten_lazy _ now _⟩
/-- The estimated cost of a thumbnail analysis. -/
theorem estimatedCost_thumbnailAnalysis : estimatedCost "thumbnailAnalysis" = 0.001 := by
  norm_num [estimatedCost, OPERATION_COSTS]

/-- The spend ceilings of the free tier. -/
theorem userLimitsFor_free : userLimitsFor "free" = SPENDING_LIMITS_perUser_free := by
  simp [userLimitsFor, SPENDING_LIMITS_perUser]

/-- The call of the witness of C9 on the spend side is allowed. -/
theorem checkSpendingLimits_staleUserDb :
    (checkSpendingLimits staleUserDb threeDaysLater "u" "thumbnailAnalysis" "free").1 =
      .ok () := by
  rw [checkSpendingLimits_eq, estimatedCost_thumbnailAnalysis, userLimitsFor_free]
  have h1 : (0 : Int) < hourAgo threeDaysLater := by decide
  have h2 : (0 : Int) < dayAgo threeDaysLater := by decide
  have h3 : ¬ (0 : Int) < monthStart threeDaysLater := by decide
  norm_num [staleUserDb, userLimitCheck, globalLimitCheck, userSpendingReset,
    userSpendingOf, globalSpendingOf, SPENDING_LIMITS_perUser_free,
    SPENDING_LIMITS_global_emergency, SPENDING_LIMITS_global_perHour, h1, h2, h3]

/-- C9, at a concrete input, three days after the records were opened at instant 0:
the hourly rate window has passed (counter 1, reset instant `now`), the hourly spend
window has passed (counter = cost), the monthly one has not (counter = 1 + cost). -/
theorem lazy_reset_committed_with_increment_witness :
    ("identify" = "identify" ∨ "identify" = "guidance") ∧
    ∃ (w : RateRecord) (v : SpendRecord),
      (checkRateLimit exhaustedRateDb threeDaysLater "u" "identify" "free").2 =
        Function.update exhaustedRateDb "u" (some w) ∧
      w.hourlyOf "identify" = 1 ∧ w.lastHourReset = threeDaysLater ∧
      (checkSpendingLimits staleUserDb threeDaysLater "u" "thumbnailAnalysis" "free").2.user =
        Function.update staleUserDb.user "u" (some v) ∧
      v.hourly = estimatedCost "thumbnailAnalysis" ∧
      v.monthly = 1 + estimatedCost "thumbnailAnalysis" := by
  obtain ⟨⟨w, -, hw, h1, h2, -⟩, ⟨v, -, hv, g1, -, -, -, g5, -⟩⟩ :=
    lazy_reset_committed_with_increment exhaustedRateDb staleUserDb threeDaysLater "u"
      "identify" "thumbnailAnalysis" "free" (Or.inl rfl)
  rw [if_pos (by decide)] at h1 h2
  rw [if_pos (by decide)] at g1
  rw [if_neg (by decide)] at g5
  exact ⟨Or.inl rfl, w, v, hw rfl, h1, h2,
    hv (fun _ => rfl) checkSpendingLimits_staleUserDb, g1, g5⟩

/-- C10, on the code. Three days after the global record was last reset, with a
stored global hourly spend of 10 the call is rejected for the global hourly ceiling,
the stale counter is not taken as 0; and with a stored global spend of 5 the call is
allowed and the record written has hourly and daily counters 5.001, the old counter
plus the cost and not the cost 0.001, with both reset instants set to `now`. -/
theorem global_counters_not_reset :
    (checkSpendingLimits (staleGlobalDb 10) threeDaysLater "u" "thumbnailAnalysis"
      "free").1 = .error .globalHourly ∧
    (checkSpendingLimits (staleGlobalDb 5) threeDaysLater "u" "thumbnailAnalysis"
      "free").1 = .ok () ∧
    (checkSpendingLimits (staleGlobalDb 5) threeDaysLater "u" "thumbnailAnalysis"
      "free").2.global =
      some
        { hourly := 5.001, daily := 5.001, total := 5.001
          lastHourReset := threeDaysLater, lastDayReset := threeDaysLater
          lastOperation := threeDaysLater } := by
  have h1 : (0 : Int) < hourAgo threeDaysLater := by decide
  have h2 : (0 : Int) < dayAgo threeDaysLater := by decide
  refine ⟨?_, ?_, ?_⟩ <;>
    rw [checkSpendingLimits_eq, estimatedCost_thumbnailAnalysis, userLimitsFor_free] <;>
    norm_num [staleGlobalDb, userLimitCheck, globalLimitCheck, userSpendingReset,
      userSpendingOf, globalSpendingOf, SPENDING_LIMITS_perUser_free, userSpendingWritten,
      globalSpendingWritten, SPENDING_LIMITS_global_emergency,
      SPENDING_LIMITS_global_perHour, h1, h2]

/-! ### The spend governor: ceilings and failures -/

/-- The global checks do not read the daily counter of the global record. -/
theorem globalLimitCheck_ignores_daily (g : GlobalSpendRecord) (d : ℚ) :
    globalLimitCheck { g with daily := d } = globalLimitCheck g := rfl

/-- C11, on the code. With a stored global daily spend of 150, over the global daily
ceiling of 100, while the global hourly spend (1) and the lifetime total (150) are
below their ceilings and the user has spent nothing, the call is allowed, and the
daily spend is written as 150.001. The global checks never read the daily counter. -/
theorem global_daily_ceiling_not_enforced :
    (∃ g, dailyCeilingDb.global = some g ∧ g.daily ≥ SPENDING_LIMITS_global_perDay) ∧
    (checkSpendingLimits dailyCeilingDb 1000 "u" "thumbnailAnalysis" "free").1 = .ok () ∧
    (checkSpendingLimits dailyCeilingDb 1000 "u" "thumbnailAnalysis" "free").2.global =
      some
        { hourly := 1.001, daily := 150.001, total := 150.001
          lastHourReset := 0, lastDayReset := 0, lastOperation := 1000 } ∧
    ∀ (g : GlobalSpendRecord) (d : ℚ),
      globalLimitCheck { g with daily := d } = globalLimitCheck g := by
  have h1 : ¬ (0 : Int) < hourAgo 1000 := by decide
  have h2 : ¬ (0 : Int) < dayAgo 1000 := by decide
  refine ⟨⟨_, rfl, ?_⟩, ?_, ?_, fun g d => rfl⟩
  · norm_num [SPENDING_LIMITS_global_perDay]
  · rw [checkSpendingLimits_eq, estimatedCost_thumbnailAnalysis, userLimitsFor_free]
    norm_num [dailyCeilingDb, userLimitCheck, globalLimitCheck, userSpendingReset,
      userSpendingOf, globalSpendingOf, SPENDING_LIMITS_perUser_free,
      SPENDING_LIMITS_global_emergency, SPENDING_LIMITS_global_perHour]
  · rw [checkSpendingLimits_eq, estimatedCost_thumbnailAnalysis, userLimitsFor_free]
    norm_num [dailyCeilingDb, userLimitCheck, globalLimitCheck, userSpendingReset,
      userSpendingOf, globalSpendingOf, SPENDING_LIMITS_perUser_free,
      globalSpendingWritten, SPENDING_LIMITS_global_emergency,
      SPENDING_LIMITS_global_perHour, h1, h2]

/-- The global checks reject a lifetime total at or over the emergency ceiling. -/
theorem globalLimitCheck_emergency (g : GlobalSpendRecord)
    (h : g.total ≥ SPENDING_LIMITS_global_emergency) :
    globalLimitCheck g = some .emergencyStop := by
  unfold globalLimitCheck
  rw [if_pos h]

/-- C12. When the stored global lifetime total is at or over the emergency ceiling
(500) and the two reads of the store succeed, `checkSpendingLimits` rejects the
operation, whatever the user, tier and operation type, and returns the database it was
given: nothing is written to the user or the global spend record. When the three
ceilings of the user pass, the error is the emergency stop. -/
theorem emergency_stop_rejects (db : SpendDb) (now : Int)
    (userId operationType userTier : String) (g : GlobalSpendRecord)
    (hUser : db.raises (.getUser userId) = false)
    (hGlobal : db.raises .getGlobal = false)
    (hg : db.global = some g)
    (hTotal : g.total ≥ SPENDING_LIMITS_global_emergency) :
    (∃ e, (checkSpendingLimits db now userId operationType userTier).1 = .error e) ∧
    (checkSpendingLimits db now userId operationType userTier).2 = db ∧
    (userLimitCheck (userSpendingReset (userSpendingOf (db.user userId) now) now)
        (userLimitsFor userTier) (estimatedCost operationType) now = none →
      (checkSpendingLimits db now userId operationType userTier).1 =
        .error .emergencyStop) := by
  have hcheck : globalLimitCheck (globalSpendingOf db.global now) = some .emergencyStop := by
    rw [hg]
    exact globalLimitCheck_emergency g hTotal
  rw [checkSpendingLimits_eq]
  simp only [hUser, hGlobal, hcheck, Bool.false_eq_true, if_false]
  rcases userLimitCheck (userSpendingReset (userSpendingOf (db.user userId) now) now)
    (userLimitsFor userTier) (estimatedCost operationType) now with _ | e1
  · exact ⟨⟨_, rfl⟩, rfl, fun _ => rfl⟩
  · exact ⟨⟨_, rfl⟩, rfl, fun h => by cases h⟩

/-- C12, at a concrete input: a stored lifetime total of 500. -/
theorem emergency_stop_rejects_witness :
    (staleGlobalDb 500).raises (.getUser "u") = false ∧
    (∃ e, (checkSpendingLimits (staleGlobalDb 500) threeDaysLater "u" "thumbnailAnalysis"
      "free").1 = .error e) ∧
    (checkSpendingLimits (staleGlobalDb 500) threeDaysLater "u" "thumbnailAnalysis"
      "free").2 = staleGlobalDb 500 :=
  ⟨rfl,
    (emergency_stop_rejects (staleGlobalDb 500) threeDaysLater "u" "thumbnailAnalysis"
      "free" _ rfl rfl rfl (by norm_num [SPENDING_LIMITS_global_emergency])).1,
    (emergency_stop_rejects (staleGlobalDb 500) threeDaysLater "u" "thumbnailAnalysis"
      "free" _ rfl rfl rfl (by norm_num [SPENDING_LIMITS_global_emergency])).2.1⟩

/-- C13. A `checkSpendingLimits` call that is rejected, for any of the ceilings (user
hourly, daily, monthly; emergency stop; global hourly), returns the database it was
given: the spend record of the user and the global spend record, reset instants
included, are unchanged. -/
theorem checkSpendingLimits_rejected_writes_nothing (db : SpendDb) (now : Int)
    (userId operationType userTier : String) (e : SpendError)
    (h : (checkSpendingLimits db now userId operationType userTier).1 = .error e) :
    (checkSpendingLimits db now userId operationType userTier).2 = db ∧
    (checkSpendingLimits db now userId operationType userTier).2.user userId =
      db.user userId ∧
    (checkSpendingLimits db now userId operationType userTier).2.global = db.global := by
  have h1 := checkSpendingLimits_error db now userId operationType userTier e h
  exact ⟨h1, by rw [h1], by rw [h1]⟩

/-- The call of the witness of C13 is rejected for the hourly ceiling of the user. -/
theorem checkSpendingLimits_staleUserDb_hourly :
    (checkSpendingLimits staleUserDb 1000 "u" "fullImageAnalysis" "free").1 =
      .error (.hourlyLimit 0.10 60) := by
  have hc : estimatedCost "fullImageAnalysis" = 0.015 := by
    norm_num [estimatedCost, OPERATION_COSTS]
  have h1 : ¬ (0 : Int) < hourAgo 1000 := by decide
  have h2 : getMinutes 1000 = 0 := by decide
  rw [checkSpendingLimits_eq, hc, userLimitsFor_free]
  norm_num [staleUserDb, userLimitCheck, userSpendingReset, userSpendingOf,
    SPENDING_LIMITS_perUser_free, h1, h2]

/-- C13, at a concrete input: a user at 0.09 of the hourly 0.10, asking for an
operation of cost 0.015. -/
theorem checkSpendingLimits_rejected_writes_nothing_witness :
    (checkSpendingLimits staleUserDb 1000 "u" "fullImageAnalysis" "free").1 =
      .error (.hourlyLimit 0.10 60) ∧
    (checkSpendingLimits staleUserDb 1000 "u" "fullImageAnalysis" "free").2 =
      staleUserDb :=
  ⟨checkSpendingLimits_staleUserDb_hourly,
    (checkSpendingLimits_rejected_writes_nothing staleUserDb 1000 "u" "fullImageAnalysis"
      "free" _ checkSpendingLimits_staleUserDb_hourly).1⟩

/-- What `checkSpendingLimits` does when the store raises no error and the global
checks pass: the three ceilings of the user decide. -/
theorem checkSpendingLimits_user_decides (db : SpendDb) (now : Int)
    (userId operationType userTier : String)
    (hStore : ∀ a, db.raises a = false)
    (hGlobal : globalLimitCheck (globalSpendingOf db.global now) = none) :
    (checkSpendingLimits db now userId operationType userTier).1 =
      match userLimitCheck (userSpendingReset (userSpendingOf (db.user userId) now) now)
        (userLimitsFor userTier) (estimatedCost operationType) now with
      | some e => .error e
      | none => .ok () := by
  rw [checkSpendingLimits_eq]
  simp only [hStore, hGlobal, Bool.false_eq_true, if_false]
  rcases userLimitCheck (userSpendingReset (userSpendingOf (db.user userId) now) now)
    (userLimitsFor userTier) (estimatedCost operationType) now with _ | e1 <;> rfl

/-- C14. With the store raising no error and the global checks passing,
`checkSpendingLimits` allows an operation of estimated cost `c` exactly when, each
counter being taken as 0 if its window has passed, `hourly + c <= perHour` and
`daily + c <= perDay` and `monthly + c <= perMonth` for the ceilings of the tier;
otherwise it rejects with the error of the first breached window, in the order hourly,
daily, monthly. The ceilings of a tier name that is not in the table are those of the
free tier. -/
theorem checkSpendingLimits_allows_iff (db : SpendDb) (now : Int)
    (userId operationType userTier : String)
    (hStore : ∀ a, db.raises a = false)
    (hGlobal : globalLimitCheck (globalSpendingOf db.global now) = none) :
    let u := userSpendingOf (db.user userId) now
    let hourly := if u.lastHourReset < hourAgo now then 0 else u.hourly
    let daily := if u.lastDayReset < dayAgo now then 0 else u.daily
    let monthly := if u.lastMonthReset < monthStart now then 0 else u.monthly
    let limits := userLimitsFor userTier
    let c := estimatedCost operationType
    ((checkSpendingLimits db now userId operationType userTier).1 = .ok () ↔
      hourly + c ≤ limits.perHour ∧ daily + c ≤ limits.perDay ∧
        monthly + c ≤ limits.perMonth) ∧
    (hourly + c > limits.perHour →
      (checkSpendingLimits db now userId operationType userTier).1 =
        .error (.hourlyLimit limits.perHour (60 - getMinutes now))) ∧
    (hourly + c ≤ limits.perHour → daily + c > limits.perDay →
      (checkSpendingLimits db now userId operationType userTier).1 =
        .error (.dailyLimit limits.perDay)) ∧
    (hourly + c ≤ limits.perHour → daily + c ≤ limits.perDay →
      monthly + c > limits.perMonth →
      (checkSpendingLimits db now userId operationType userTier).1 =
        .error (.monthlyLimit limits.perMonth)) ∧
    (SPENDING_LIMITS_perUser userTier = none → limits = SPENDING_LIMITS_perUser_free) := by
  intro u hourly daily monthly limits c
  have hres := checkSpendingLimits_user_decides db now userId operationType userTier
    hStore hGlobal
  have hchk : userLimitCheck (userSpendingReset u now) limits c now =
      if hourly + c > limits.perHour then
        some (.hourlyLimit limits.perHour (60 - getMinutes now))
      else if daily + c > limits.perDay then some (.dailyLimit limits.perDay)
      else if monthly + c > limits.perMonth then some (.monthlyLimit limits.perMonth)
      else none := rfl
  rw [hres, hchk]
  refine ⟨?_, ?_, ?_, ?_, ?_⟩
  · by_cases h1 : hourly + c > limits.perHour
    · simp only [h1, if_true]
      constructor
      · intro h; cases h
      · intro h; exact absurd h.1 (not_le.mpr h1)
    · by_cases h2 : daily + c > limits.perDay
      · simp only [h1, h2, if_true, if_false]
        constructor
        · intro h; cases h
        · intro h; exact absurd h.2.1 (not_le.mpr h2)
      · by_cases h3 : monthly + c > limits.perMonth
        · simp only [h1, h2, h3, if_true, if_false]
          constructor
          · intro h; cases h
          · intro h; exact absurd h.2.2 (not_le.mpr h3)
        · simp only [h1, h2, h3, if_false]
          exact ⟨fun _ => ⟨not_lt.mp h1, not_lt.mp h2, not_lt.mp h3⟩, fun _ => trivial⟩
  · intro h1
    simp only [h1, if_true]
  · intro h1 h2
    simp only [not_lt.mpr h1, h2, if_true, if_false]
  · intro h1 h2 h3
    simp only [not_lt.mpr h1, not_lt.mpr h2, h3, if_true, if_false]
  · intro h
    show userLimitsFor userTier = SPENDING_LIMITS_perUser_free
    simp [userLimitsFor, h]

/-- C14, at a concrete input: a free user at 0.09 of the hourly 0.10 is allowed an
operation of cost 0.001. -/
theorem checkSpendingLimits_allows_iff_witness :
    (∀ a, staleUserDb.raises a = false) ∧
    globalLimitCheck (globalSpendingOf staleUserDb.global 1000) = none ∧
    (checkSpendingLimits staleUserDb 1000 "u" "thumbnailAnalysis" "free").1 = .ok () := by
  have hG : globalLimitCheck (globalSpendingOf staleUserDb.global 1000) = none := by
    norm_num [globalLimitCheck, globalSpendingOf, staleUserDb,
      SPENDING_LIMITS_global_emergency, SPENDING_LIMITS_global_perHour]
  have h := checkSpendingLimits_allows_iff staleUserDb 1000 "u" "thumbnailAnalysis" "free"
    (fun _ => rfl) hG
  simp only at h
  have h1 : ¬ (0 : Int) < hourAgo 1000 := by decide
  have h2 : ¬ (0 : Int) < dayAgo 1000 := by decide
  have h3 : ¬ (0 : Int) < monthStart 1000 := by decide
  refine ⟨fun _ => rfl, hG, h.1.mpr ?_⟩
  rw [estimatedCost_thumbnailAnalysis, userLimitsFor_free]
  norm_num [staleUserDb, userSpendingOf, SPENDING_LIMITS_perUser_free, h1, h2, h3]

/-- An allowed `checkSpendingLimits`, the store raising no error, writes the global
record. -/
theorem checkSpendingLimits_ok_global (db : SpendDb) (now : Int)
    (userId operationType userTier : String) (hStore : ∀ a, db.raises a = false)
    (h : (checkSpendingLimits db now userId operationType userTier).1 = .ok ()) :
    (checkSpendingLimits db now userId operationType userTier).2.global =
      some (globalSpendingWritten (globalSpendingOf db.global now) now
        (estimatedCost operationType)) := by
  rw [checkSpendingLimits_eq] at h ⊢
  simp only [hStore, Bool.false_eq_true, if_false] at h ⊢
  generalize userLimitCheck (userSpendingReset (userSpendingOf (db.user userId) now) now)
    (userLimitsFor userTier) (estimatedCost operationType) now = uc at h ⊢
  generalize globalLimitCheck (globalSpendingOf db.global now) = gc at h ⊢
  rcases uc with _ | e1
  · rcases gc with _ | e2
    · rfl
    · cases h
  · cases h

/-- No entry of `OPERATION_COSTS` is 0, so the estimated cost of an operation type of
the table is its entry. -/
theorem estimatedCost_of_entry (operationType : String) (x : ℚ)
    (h : OPERATION_COSTS operationType = some x) : estimatedCost operationType = x := by
  have hx : x ≠ 0 := by
    unfold OPERATION_COSTS at h
    split at h <;> first | (cases h; norm_num) | cases h
  simp [estimatedCost, h, hx]

/-- C15, as stated, fails: behind a store that raises on the read of the user record
the call is allowed, and the counters of the user and the global record are as before
the call, although the estimated cost is not 0. -/
theorem allowed_without_increment :
    (checkSpendingLimits unreachableStoreDb 1000 "u" "thumbnailAnalysis" "free").1 =
      .ok () ∧
    (checkSpendingLimits unreachableStoreDb 1000 "u" "thumbnailAnalysis" "free").2.user "u" =
      unreachableStoreDb.user "u" ∧
    (checkSpendingLimits unreachableStoreDb 1000 "u" "thumbnailAnalysis" "free").2.global =
      unreachableStoreDb.global ∧
    estimatedCost "thumbnailAnalysis" ≠ 0 := by
  refine ⟨rfl, rfl, rfl, ?_⟩
  rw [estimatedCost_thumbnailAnalysis]
  norm_num

/-- C15, amended. When `checkSpendingLimits` allows an operation and no access to the
store raises an error, the records written hold, for the user, the hourly, daily and
monthly counters (each taken as 0 if its window has passed) plus the estimated cost,
and, for the global record, the lifetime total plus the estimated cost; the estimated
cost is the entry of `OPERATION_COSTS` for the operation type, and 0.01 for an
operation type that is not in the table. Amounts are exact rationals. -/
theorem allowed_increments_by_estimated_cost (db : SpendDb) (now : Int)
    (userId operationType userTier : String)
    (hStore : ∀ a, db.raises a = false)
    (hOk : (checkSpendingLimits db now userId operationType userTier).1 = .ok ()) :
    let u := userSpendingOf (db.user userId) now
    let c := estimatedCost operationType
    (∃ v g,
      (checkSpendingLimits db now userId operationType userTier).2.user userId = some v ∧
      (checkSpendingLimits db now userId operationType userTier).2.global = some g ∧
      v.hourly = (if u.lastHourReset < hourAgo now then 0 else u.hourly) + c ∧
      v.daily = (if u.lastDayReset < dayAgo now then 0 else u.daily) + c ∧
      v.monthly = (if u.lastMonthReset < monthStart now then 0 else u.monthly) + c ∧
      g.total = (globalSpendingOf db.global now).total + c) ∧
    (∀ x, OPERATION_COSTS operationType = some x → c = x) ∧
    (OPERATION_COSTS operationType = none → c = 0.01) := by
  intro u c
  refine ⟨⟨userSpendingWritten (userSpendingReset u now) now c,
    globalSpendingWritten (globalSpendingOf db.global now) now c, ?_,
    checkSpendingLimits_ok_global db now userId operationType userTier hStore hOk,
    rfl, rfl, rfl, rfl⟩, fun x hx => estimatedCost_of_entry operationType x hx, ?_⟩
  · rw [checkSpendingLimits_ok_user db now userId operationType userTier hStore hOk]
    simp [u, c]
  · intro h
    simp [c, estimatedCost, h]

/-- C15 amended, at a concrete input: the allowed call of a free user three days after
the records were opened. -/
theorem allowed_increments_by_estimated_cost_witness :
    (∀ a, staleUserDb.raises a = false) ∧
    ∃ v g,
      (checkSpendingLimits staleUserDb threeDaysLater "u" "thumbnailAnalysis"
        "free").2.user "u" = some v ∧
      (checkSpendingLimits staleUserDb threeDaysLater "u" "thumbnailAnalysis"
        "free").2.global = some g ∧
      v.monthly = 1 + estimatedCost "thumbnailAnalysis" ∧
      g.total = estimatedCost "thumbnailAnalysis" := by
  obtain ⟨⟨v, g, hv, hg, -, -, h3, h4⟩, -, -⟩ :=
    allowed_increments_by_estimated_cost staleUserDb threeDaysLater "u"
      "thumbnailAnalysis" "free" (fun _ => rfl) checkSpendingLimits_staleUserDb
  rw [if_neg (by decide)] at h3
  refine ⟨fun _ => rfl, v, g, hv, hg, h3, ?_⟩
  rw [h4]
  simp [globalSpendingOf, staleUserDb]

/-- C16. When the store raises an error on the read of the user spend record,
`checkSpendingLimits` returns normally, with the database it was given; and when the
read of the user record succeeds, the ceilings of the user pass and the store raises
an error on the read of the global spend record, it returns normally as well: the
operation is allowed, not rejected. -/
theorem checkSpendingLimits_fails_open (db : SpendDb) (now : Int)
    (userId operationType userTier : String) :
    (db.raises (.getUser userId) = true →
      checkSpendingLimits db now userId operationType userTier = (.ok (), db)) ∧
    (db.raises (.getUser userId) = false →
      userLimitCheck (userSpendingReset (userSpendingOf (db.user userId) now) now)
        (userLimitsFor userTier) (estimatedCost operationType) now = none →
      db.raises .getGlobal = true →
      checkSpendingLimits db now userId operationType userTier = (.ok (), db)) := by
  constructor
  · intro h
    rw [checkSpendingLimits_eq, if_pos h]
  · intro h1 h2 h3
    rw [checkSpendingLimits_eq, if_neg (by simp [h1]), h2]
    simp only [h3, if_true]

/-- C16, at a concrete input: a store that raises on every access. -/
theorem checkSpendingLimits_fails_open_witness :
    unreachableStoreDb.raises (.getUser "u") = true ∧
    checkSpendingLimits unreachableStoreDb 1000 "u" "fullImageAnalysis" "free" =
      (.ok (), unreachableStoreDb) :=
  ⟨rfl, (checkSpendingLimits_fails_open unreachableStoreDb 1000 "u" "fullImageAnalysis"
    "free").1 rfl⟩

/-! ### The deduplicator -/

/-- What `checkDuplicateRequest` does when there is no marker, or a marker that is at
least as old as the window. -/
theorem checkDuplicateRequest_accepts (db : DedupeDb) (now : Int)
    (userId requestHash : String) (w : Int)
    (h : ∀ m, db (dedupeDocId userId requestHash) = some m → ¬ ageSeconds now m < (w : ℚ)) :
    checkDuplicateRequest db now userId requestHash w =
      (.ok (),
        Function.update db (dedupeDocId userId requestHash)
          (some { timestamp := now, userId := userId }),
        some { fireAt := now + w * 1000, docId := dedupeDocId userId requestHash }) := by
  unfold checkDuplicateRequest
  rcases hm : db (dedupeDocId userId requestHash) with _ | m
  · simp only [hm]
  · simp only [hm, if_neg (h m hm)]

/-- What `checkDuplicateRequest` does when there is a marker younger than the
window. -/
theorem checkDuplicateRequest_rejects (db : DedupeDb) (now : Int)
    (userId requestHash : String) (w : Int) (m : DedupeMarker)
    (hm : db (dedupeDocId userId requestHash) = some m) (h : ageSeconds now m < (w : ℚ)) :
    checkDuplicateRequest db now userId requestHash w =
      (.error (.duplicateRequest ⌈(w : ℚ) - ageSeconds now m⌉), db, none) := by
  unfold checkDuplicateRequest
  simp only [hm, if_pos h]

/-- The age of a marker `k` seconds later. -/
theorem ageSeconds_later (now k : Int) (m : DedupeMarker) :
    ageSeconds (now + k * 1000) m = ageSeconds now m + k := by
  unfold ageSeconds
  push_cast
  ring

/-- C17. `checkDuplicateRequest` rejects with the duplicate-request error exactly when
a marker exists for the document id of the user and fingerprint whose age is strictly
less than the window `w`; otherwise it returns normally and writes a marker stamped
`now`. Hence a second call made before `w` seconds have passed since an accepted first
call (so, for `w > 0`, at the same instant) is rejected, and a call made `w` or more
seconds after the marker was written is accepted, however old the marker is. -/
theorem checkDuplicateRequest_rejects_iff (db : DedupeDb) (now : Int)
    (userId requestHash : String) (w : Int) :
    ((∃ wait, (checkDuplicateRequest db now userId requestHash w).1 =
        .error (.duplicateRequest wait)) ↔
      ∃ m, db (dedupeDocId userId requestHash) = some m ∧ ageSeconds now m < (w : ℚ)) ∧
    ((¬ ∃ m, db (dedupeDocId userId requestHash) = some m ∧ ageSeconds now m < (w : ℚ)) →
      (checkDuplicateRequest db now userId requestHash w).1 = .ok () ∧
      (checkDuplicateRequest db now userId requestHash w).2.1 =
        Function.update db (dedupeDocId userId requestHash)
          (some { timestamp := now, userId := userId })) ∧
    (∀ now2 : Int, (checkDuplicateRequest db now userId requestHash w).1 = .ok () →
      ((now2 - now : Int) : ℚ) / 1000 < (w : ℚ) →
      ∃ wait, (checkDuplicateRequest (checkDuplicateRequest db now userId requestHash w).2.1
        now2 userId requestHash w).1 = .error (.duplicateRequest wait)) ∧
    (0 < w → (checkDuplicateRequest db now userId requestHash w).1 = .ok () →
      ∃ wait, (checkDuplicateRequest (checkDuplicateRequest db now userId requestHash w).2.1
        now userId requestHash w).1 = .error (.duplicateRequest wait)) ∧
    (∀ m, db (dedupeDocId userId requestHash) = some m → (w : ℚ) ≤ ageSeconds now m →
      (checkDuplicateRequest db now userId requestHash w).1 = .ok ()) := by
  have hsecond : ∀ now2 : Int,
      (checkDuplicateRequest db now userId requestHash w).1 = .ok () →
      ((now2 - now : Int) : ℚ) / 1000 < (w : ℚ) →
      ∃ wait, (checkDuplicateRequest (checkDuplicateRequest db now userId requestHash w).2.1
        now2 userId requestHash w).1 = .error (.duplicateRequest wait) := by
    intro now2 hok hage
    have hacc : ∀ m, db (dedupeDocId userId requestHash) = some m →
        ¬ ageSeconds now m < (w : ℚ) := by
      intro m hm hlt
      rw [checkDuplicateRequest_rejects db now userId requestHash w m hm hlt] at hok
      cases hok
    rw [checkDuplicateRequest_accepts db now userId requestHash w hacc]
    refine ⟨⌈(w : ℚ) - ageSeconds now2 { timestamp := now, userId := userId }⌉, ?_⟩
    rw [checkDuplicateRequest_rejects _ now2 userId requestHash w
      { timestamp := now, userId := userId } (by simp) hage]
  refine ⟨⟨?_, ?_⟩, ?_, hsecond, ?_, ?_⟩
  · rintro ⟨wait, hw⟩
    by_contra hno
    rw [checkDuplicateRequest_accepts db now userId requestHash w
      (fun m hm hlt => hno ⟨m, hm, hlt⟩)] at hw
    cases hw
  · rintro ⟨m, hm, hlt⟩
    exact ⟨⌈(w : ℚ) - ageSeconds now m⌉,
      by rw [checkDuplicateRequest_rejects db now userId requestHash w m hm hlt]⟩
  · intro hno
    rw [checkDuplicateRequest_accepts db now userId requestHash w
      (fun m hm hlt => hno ⟨m, hm, hlt⟩)]
    exact ⟨rfl, rfl⟩
  · intro hw hok
    refine hsecond now hok ?_
    simp only [sub_self, Int.cast_zero, zero_div]
    exact_mod_cast hw
  · intro m hm hle
    rw [checkDuplicateRequest_accepts db now userId requestHash w]
    intro m1 hm1
    rw [hm] at hm1
    cases hm1
    exact not_lt.mpr hle

/-- C18. When `checkDuplicateRequest` rejects a request whose marker has age `a` with
`0 <= a < w`, the wait it reports is `ceil(w - a)` seconds, which lies between 1 and
`w`, and the same request made that many seconds later, the marker being the same, is
accepted. -/
theorem checkDuplicateRequest_wait (db : DedupeDb) (now : Int)
    (userId requestHash : String) (w : Int) (m : DedupeMarker)
    (hm : db (dedupeDocId userId requestHash) = some m)
    (h0 : 0 ≤ ageSeconds now m) (h1 : ageSeconds now m < (w : ℚ)) :
    (checkDuplicateRequest db now userId requestHash w).1 =
      .error (.duplicateRequest ⌈(w : ℚ) - ageSeconds now m⌉) ∧
    1 ≤ ⌈(w : ℚ) - ageSeconds now m⌉ ∧
    ⌈(w : ℚ) - ageSeconds now m⌉ ≤ w ∧
    (checkDuplicateRequest (checkDuplicateRequest db now userId requestHash w).2.1
      (now + ⌈(w : ℚ) - ageSeconds now m⌉ * 1000) userId requestHash w).1 = .ok () := by
  have hrej := checkDuplicateRequest_rejects db now userId requestHash w m hm h1
  refine ⟨by rw [hrej], ?_, ?_, ?_⟩
  · rw [Int.one_le_ceil_iff]
    linarith
  · rw [Int.ceil_le]
    linarith
  · rw [hrej]
    rw [checkDuplicateRequest_accepts db _ userId requestHash w]
    intro m1 hm1
    rw [hm] at hm1
    cases hm1
    rw [ageSeconds_later]
    have := Int.le_ceil ((w : ℚ) - ageSeconds now m)
    linarith

/-- C17, at a concrete input: a first call at instant 0 with a window of 10 seconds
is accepted, and a second call 5 seconds later is rejected. -/
theorem checkDuplicateRequest_rejects_iff_witness :
    (checkDuplicateRequest (fun _ => none) 0 "u" "abc" 10).1 = .ok () ∧
    ∃ wait, (checkDuplicateRequest (checkDuplicateRequest (fun _ => none) 0 "u" "abc" 10).2.1
      5000 "u" "abc" 10).1 = .error (.duplicateRequest wait) :=
  ⟨rfl, (checkDuplicateRequest_rejects_iff (fun _ => none) 0 "u" "abc" 10).2.2.1 5000 rfl
    (by norm_num)⟩

/-- C18, at a concrete input: a marker 2.5 seconds old and a window of 10 seconds; the
wait is between 1 and 10 and the call made that many seconds later is accepted. -/
theorem checkDuplicateRequest_wait_witness :
    (0 ≤ ageSeconds 2500 { timestamp := 0, userId := "u" } ∧
      ageSeconds 2500 { timestamp := 0, userId := "u" } < ((10 : Int) : ℚ)) ∧
    (checkDuplicateRequest markedDb 2500 "u" "abc" 10).1 =
      .error (.duplicateRequest
        ⌈((10 : Int) : ℚ) - ageSeconds 2500 { timestamp := 0, userId := "u" }⌉) ∧
    1 ≤ ⌈((10 : Int) : ℚ) - ageSeconds 2500 { timestamp := 0, userId := "u" }⌉ ∧
    ⌈((10 : Int) : ℚ) - ageSeconds 2500 { timestamp := 0, userId := "u" }⌉ ≤ 10 ∧
    (checkDuplicateRequest (checkDuplicateRequest markedDb 2500 "u" "abc" 10).2.1
      (2500 + ⌈((10 : Int) : ℚ) - ageSeconds 2500 { timestamp := 0, userId := "u" }⌉ * 1000)
      "u" "abc" 10).1 = .ok () := by
  have h0 : 0 ≤ ageSeconds 2500 { timestamp := 0, userId := "u" } := by
    norm_num [ageSeconds]
  have h1 : ageSeconds 2500 { timestamp := 0, userId := "u" } < ((10 : Int) : ℚ) := by
    norm_num [ageSeconds]
  exact ⟨⟨h0, h1⟩, checkDuplicateRequest_wait markedDb 2500 "u" "abc" 10
    { timestamp := 0, userId := "u" } rfl h0 h1⟩

/-! ### The query budget guard -/

/-- One call of `track`: the tracker after it, and its result. -/
theorem track_eq (t : QueryTracker) (q : QueryEntry) :
    (t.track q.operation q.collection q.timestamp).2 =
      { queryCount := t.queryCount + 1, maxQueries := t.maxQueries,
        queries := t.queries ++ [q] } ∧
    (t.queryCount + 1 ≤ t.maxQueries →
      (t.track q.operation q.collection q.timestamp).1 = .ok ()) ∧
    (t.queryCount + 1 > t.maxQueries →
      (t.track q.operation q.collection q.timestamp).1 =
        .error (.queryLimitExceeded (t.queries ++ [q]))) := by
  unfold QueryTracker.track
  refine ⟨?_, ?_, ?_⟩
  · by_cases h : t.queryCount + 1 > t.maxQueries <;> simp [h]
  · intro h
    simp [not_lt.mpr h]
  · intro h
    simp [h]

/-- The results of a sequence of calls: the first call, then the others. -/
theorem trackAll_cons (t : QueryTracker) (q : QueryEntry) (rest : List QueryEntry) :
    trackAll t (q :: rest) =
      ((t.track q.operation q.collection q.timestamp).1 ::
          (trackAll (t.track q.operation q.collection q.timestamp).2 rest).1,
        (trackAll (t.track q.operation q.collection q.timestamp).2 rest).2) := rfl

/-- The tracker after a sequence of calls counts every call and holds every entry, in
call order. -/
theorem trackAll_state (calls : List QueryEntry) :
    ∀ t : QueryTracker, (trackAll t calls).2 =
      { queryCount := t.queryCount + calls.length, maxQueries := t.maxQueries,
        queries := t.queries ++ calls } := by
  induction calls with
  | nil => intro t; simp [trackAll]
  | cons q rest ih =>
    intro t
    rw [trackAll_cons, ih, (track_eq t q).1]
    simp only [List.length_cons, Nat.cast_add, Nat.cast_one, List.append_assoc,
      List.singleton_append, QueryTracker.mk.injEq, and_true, true_and]
    ring

/-- The calls made while the count stays within the ceiling all succeed. -/
theorem trackAll_within (calls : List QueryEntry) :
    ∀ t : QueryTracker, t.queryCount + calls.length ≤ t.maxQueries →
      (trackAll t calls).1 = List.replicate calls.length (.ok ()) := by
  induction calls with
  | nil => intro t _; rfl
  | cons q rest ih =>
    intro t h
    simp only [List.length_cons, Nat.cast_add, Nat.cast_one] at h
    rw [trackAll_cons, (track_eq t q).2.1 (by omega),
      ih _ (by rw [(track_eq t q).1]; dsimp only; omega)]
    rfl

/-- The results of a sequence of calls followed by one more call. -/
theorem trackAll_append_singleton (calls : List QueryEntry) (q : QueryEntry) :
    ∀ t : QueryTracker, (trackAll t (calls ++ [q])).1 =
      (trackAll t calls).1 ++
        [((trackAll t calls).2.track q.operation q.collection q.timestamp).1] := by
  induction calls with
  | nil => intro t; rfl
  | cons p rest ih =>
    intro t
    rw [List.cons_append, trackAll_cons, trackAll_cons, ih]
    rfl

/-- C19. For a `QueryTracker` built with a ceiling `N` (any integer, so any `N >= 0`):
calls up to the `N`-th all succeed, and the `(N+1)`-th call raises, with the list of
all the entries tracked, its own included; after any `k` calls, `getStats().total = k`
and `getStats().queries` holds the `k` entries in call order. -/
theorem queryTracker_ceiling (N : Int) (calls : List QueryEntry) :
    ((calls.length : Int) ≤ N →
      (trackAll (QueryTracker.new N) calls).1 = List.replicate calls.length (.ok ())) ∧
    (∀ q : QueryEntry, (calls.length : Int) = N →
      (trackAll (QueryTracker.new N) (calls ++ [q])).1 =
        List.replicate calls.length (.ok ()) ++
          [.error (.queryLimitExceeded (calls ++ [q]))]) ∧
    (trackAll (QueryTracker.new N) calls).2.getStats.total = calls.length ∧
    (trackAll (QueryTracker.new N) calls).2.getStats.queries = calls ∧
    (trackAll (QueryTracker.new N) calls).2.getStats.max = N := by
  refine ⟨?_, ?_, ?_, ?_, ?_⟩
  · intro h
    exact trackAll_within calls _ (by simp [QueryTracker.new]; exact h)
  · intro q h
    rw [trackAll_append_singleton, trackAll_within calls _
      (by simp [QueryTracker.new]; omega), trackAll_state]
    have hq := (track_eq
      { queryCount := (QueryTracker.new N).queryCount + calls.length,
        maxQueries := (QueryTracker.new N).maxQueries,
        queries := (QueryTracker.new N).queries ++ calls } q).2.2
      (by simp [QueryTracker.new]; omega)
    rw [hq]
    simp [QueryTracker.new]
  · rw [trackAll_state]
    simp [QueryTracker.getStats, QueryTracker.new]
  · rw [trackAll_state]
    simp [QueryTracker.getStats, QueryTracker.new]
  · rw [trackAll_state]
    simp [QueryTracker.getStats, QueryTracker.new]

/-- C19, at a concrete input: a ceiling of 2 and three calls. -/
theorem queryTracker_ceiling_witness :
    (0 : Int) ≤ 2 ∧
    (trackAll (QueryTracker.new 2)
      ([{ operation := "read", collection := "users", timestamp := 1 },
        { operation := "read", collection := "rate_limits", timestamp := 2 }] ++
       [{ operation := "write", collection := "rate_limits", timestamp := 3 }])).1 =
      [.ok (), .ok (),
        .error (.queryLimitExceeded
          [{ operation := "read", collection := "users", timestamp := 1 },
           { operation := "read", collection := "rate_limits", timestamp := 2 },
           { operation := "write", collection := "rate_limits", timestamp := 3 }])] :=
  ⟨by decide,
    (queryTracker_ceiling 2
      [{ operation := "read", collection := "users", timestamp := 1 },
       { operation := "read", collection := "rate_limits", timestamp := 2 }]).2.1
      { operation := "write", collection := "rate_limits", timestamp := 3 } rfl⟩

/-! ### Spending alerts -/

/-- `checkSpendingLimits` keeps a daily alert flag that is set: neither a rejected nor
an allowed call, with or without a reset of the daily counter, clears it. -/
theorem checkSpendingLimits_keeps_dailyAlertSent (db : SpendDb) (now : Int)
    (userId operationType userTier : String)
    (h : ∃ r, db.user userId = some r ∧ r.dailyAlertSent = true) :
    ∃ r, (checkSpendingLimits db now userId operationType userTier).2.user userId = some r ∧
      r.dailyAlertSent = true := by
  obtain ⟨r, hr, hs⟩ := h
  rcases checkSpendingLimits_user db now userId operationType userTier with h1 | h1
  · rw [h1]
    exact ⟨r, hr, hs⟩
  · rw [h1, hr]
    exact ⟨userSpendingWritten (userSpendingReset (userSpendingOf (some r) now) now) now
      (estimatedCost operationType), by simp, hs⟩

/-- Once the daily alert flag is set, `checkAndSendAlerts` logs no daily alert and
leaves the flag set. -/
theorem checkAndSendAlerts_after_sent (db : SpendDb) (userId userTier : String)
    (h : ∃ r, db.user userId = some r ∧ r.dailyAlertSent = true) :
    (∀ a ∈ (checkAndSendAlerts db userId userTier).1, ∀ p, a ≠ .daily p) ∧
    ∃ r, (checkAndSendAlerts db userId userTier).2.user userId = some r ∧
      r.dailyAlertSent = true := by
  obtain ⟨r, hr, hs⟩ := h
  unfold checkAndSendAlerts
  simp only [hr, hs, Bool.not_true, Bool.and_false, Bool.false_and, Bool.false_eq_true,
    if_false, List.nil_append]
  rcases db.raises (.getUser userId) <;> rcases db.raises (.setUser userId) <;>
  rcases db.raises .getGlobal <;>
  rcases (decide (r.monthly / (userLimitsFor userTier).perMonth * 100 ≥ 80) &&
    !r.monthlyAlertSent) <;>
  rcases hg : db.global with _ | g <;>
  simp [hr, hs, globalAlerts]

/-- Once the daily alert flag of a user is set, no sequence of `checkSpendingLimits`
and `checkAndSendAlerts` calls for that user logs a daily alert again, in whatever
window the calls are made. -/
theorem daily_alert_never_again (userId : String) (calls : List SpendCall) :
    ∀ db : SpendDb, (∃ r, db.user userId = some r ∧ r.dailyAlertSent = true) →
      ∀ a ∈ (runSpendCalls db userId calls).1, ∀ p, a ≠ .daily p := by
  induction calls with
  | nil => intro db _ a ha; simp [runSpendCalls] at ha
  | cons c rest ih =>
    intro db h
    cases c with
    | check now operationType userTier =>
      exact ih _ (checkSpendingLimits_keeps_dailyAlertSent db now userId operationType
        userTier h)
    | alerts userTier =>
      obtain ⟨h1, h2⟩ := checkAndSendAlerts_after_sent db userId userTier h
      intro a ha
      have hrun : (runSpendCalls db userId (.alerts userTier :: rest)).1 =
          (checkAndSendAlerts db userId userTier).1 ++
            (runSpendCalls (checkAndSendAlerts db userId userTier).2 userId rest).1 := rfl
      rw [hrun, List.mem_append] at ha
      rcases ha with ha | ha
      · exact h1 a ha
      · exact ih _ h2 a ha

/-- C20, on the code. A free user at 82% of the daily ceiling: the first
`checkAndSendAlerts` logs the daily alert and sets the flag, and a second call in the
same window logs nothing. Three days later `checkSpendingLimits` resets the daily
counter (it becomes the cost, 0.015, and `lastDayReset` becomes `now`) and keeps the
flag set; and in that later window, with the daily spend again at 82% of the ceiling,
`checkAndSendAlerts` logs nothing: the daily alert is not raised again. -/
theorem daily_alert_only_once_ever :
    (checkAndSendAlerts (spendDbWith (recordAt82Percent 0 false)) "u" "free").1 =
      [.daily 82] ∧
    (checkAndSendAlerts (spendDbWith (recordAt82Percent 0 false)) "u" "free").2.user "u" =
      some (recordAt82Percent 0 true) ∧
    (checkAndSendAlerts (spendDbWith (recordAt82Percent 0 true)) "u" "free").1 = [] ∧
    (∃ r, (checkSpendingLimits (spendDbWith (recordAt82Percent 0 true)) threeDaysLater "u"
        "fullImageAnalysis" "free").2.user "u" = some r ∧
      r.daily = 0.015 ∧ r.lastDayReset = threeDaysLater ∧ r.dailyAlertSent = true) ∧
    (recordAt82Percent threeDaysLater true).daily / (userLimitsFor "free").perDay * 100
      ≥ 80 ∧
    (checkAndSendAlerts (spendDbWith (recordAt82Percent threeDaysLater true)) "u"
      "free").1 = [] := by
  have hc : estimatedCost "fullImageAnalysis" = 0.015 := by
    norm_num [estimatedCost, OPERATION_COSTS]
  have h1 : (0 : Int) < hourAgo threeDaysLater := by decide
  have h2 : (0 : Int) < dayAgo threeDaysLater := by decide
  have h3 : ¬ (0 : Int) < monthStart threeDaysLater := by decide
  refine ⟨?_, ?_, ?_, ?_, ?_, ?_⟩
  · unfold checkAndSendAlerts
    rw [userLimitsFor_free]
    norm_num [spendDbWith, recordAt82Percent, SPENDING_LIMITS_perUser_free, globalAlerts]
  · unfold checkAndSendAlerts
    rw [userLimitsFor_free]
    norm_num [spendDbWith, recordAt82Percent, SPENDING_LIMITS_perUser_free, globalAlerts]
  · unfold checkAndSendAlerts
    rw [userLimitsFor_free]
    norm_num [spendDbWith, recordAt82Percent, SPENDING_LIMITS_perUser_free, globalAlerts]
  · have hok : (checkSpendingLimits (spendDbWith (recordAt82Percent 0 true)) threeDaysLater
        "u" "fullImageAnalysis" "free").1 = .ok () := by
      rw [checkSpendingLimits_eq, hc, userLimitsFor_free]
      norm_num [spendDbWith, recordAt82Percent, userLimitCheck, globalLimitCheck,
        userSpendingReset, userSpendingOf, globalSpendingOf, SPENDING_LIMITS_perUser_free,
        SPENDING_LIMITS_global_emergency, SPENDING_LIMITS_global_perHour, h1, h2, h3]
    rw [checkSpendingLimits_ok_user _ threeDaysLater "u" "fullImageAnalysis" "free"
      (fun _ => rfl) hok, hc]
    refine ⟨userSpendingWritten
      (userSpendingReset (userSpendingOf ((spendDbWith (recordAt82Percent 0 true)).user "u")
        threeDaysLater) threeDaysLater) threeDaysLater 0.015, by simp, ?_, ?_, rfl⟩
    · norm_num [userSpendingWritten, userSpendingReset, userSpendingOf, spendDbWith,
        recordAt82Percent, h2]
    · simp [userSpendingWritten, userSpendingReset, userSpendingOf, spendDbWith,
        recordAt82Percent, h2]
  · rw [userLimitsFor_free]
    norm_num [recordAt82Percent, SPENDING_LIMITS_perUser_free]
  · unfold checkAndSendAlerts
    rw [userLimitsFor_free]
    norm_num [spendDbWith, recordAt82Percent, SPENDING_LIMITS_perUser_free, globalAlerts]

/-! ### Retry hints -/

/-- C21, on the code. A free user used the three hourly identifications in the window
opened at minute 50. A call at minute 55 is rejected with the hint of 5 minutes, and
the same call 5 minutes later, at minute 60, is rejected for the hourly ceiling again
(the stored window resets after minute 110). The same holds for the hourly spend
ceiling: rejected at minute 55 with the hint of 5 minutes, and rejected again at
minute 60. -/
theorem hourly_hint_is_not_the_reset :
    (checkRateLimit (exhaustedRateDbAt (minutes 50)) (minutes 55) "u" "identify" "free").1 =
      .error (.identifyHourly 3 5) ∧
    (checkRateLimit (exhaustedRateDbAt (minutes 50)) (minutes 55 + minutes 5) "u" "identify"
      "free").1 = .error (.identifyHourly 3 60) ∧
    (checkSpendingLimits (spendDbWith (recordAtHourlyCeiling (minutes 50))) (minutes 55) "u"
      "thumbnailAnalysis" "free").1 = .error (.hourlyLimit 0.10 5) ∧
    (checkSpendingLimits (spendDbWith (recordAtHourlyCeiling (minutes 50)))
      (minutes 55 + minutes 5) "u" "thumbnailAnalysis" "free").1 =
      .error (.hourlyLimit 0.10 60) := by
  have h1 : ¬ minutes 50 < hourAgo (minutes 55) := by decide
  have h2 : ¬ minutes 50 < hourAgo (minutes 55 + minutes 5) := by decide
  have h3 : getMinutes (minutes 55) = 55 := by decide
  have h4 : getMinutes (minutes 55 + minutes 5) = 0 := by decide
  refine ⟨rfl, rfl, ?_, ?_⟩
  · rw [checkSpendingLimits_eq, estimatedCost_thumbnailAnalysis, userLimitsFor_free]
    norm_num [spendDbWith, recordAtHourlyCeiling, userLimitCheck, userSpendingReset,
      userSpendingOf, SPENDING_LIMITS_perUser_free, h1, h3]
  · rw [checkSpendingLimits_eq, estimatedCost_thumbnailAnalysis, userLimitsFor_free]
    norm_num [spendDbWith, recordAtHourlyCeiling, userLimitCheck, userSpendingReset,
      userSpendingOf, SPENDING_LIMITS_perUser_free, h2, h4]

/-! ### The gates of identifyCrystalSafe -/

/-- A rejected `checkDuplicateRequest` returns the collection it was given. -/
theorem checkDuplicateRequest_error (db : DedupeDb) (now : Int)
    (userId requestHash : String) (w : Int) (e : DedupeError)
    (h : (checkDuplicateRequest db now userId requestHash w).1 = .error e) :
    (checkDuplicateRequest db now userId requestHash w).2.1 = db := by
  by_cases hm : ∃ m, db (dedupeDocId userId requestHash) = some m ∧
      ageSeconds now m < (w : ℚ)
  · obtain ⟨m, hm1, hm2⟩ := hm
    rw [checkDuplicateRequest_rejects db now userId requestHash w m hm1 hm2]
  · rw [checkDuplicateRequest_accepts db now userId requestHash w
      (fun m h1 h2 => hm ⟨m, h1, h2⟩)] at h
    cases h

/-- What the gates of `identifyCrystalSafe` do, by cases on the results of the three
checks, in the order the handler makes them. -/
theorem identifyCrystalSafeGates_eq (db : GateDb) (now : Int)
    (userId userTier requestHash : String) (forceFullAnalysis : Bool) :
    (∀ e, (checkDuplicateRequest db.dedupe now userId requestHash 10).1 = .error e →
      identifyCrystalSafeGates db now userId userTier requestHash forceFullAnalysis =
        (.duplicateRequest e, db)) ∧
    ((checkDuplicateRequest db.dedupe now userId requestHash 10).1 = .ok () →
      ∀ e, (checkRateLimit db.rate now userId "identify" userTier).1 = .error e →
      identifyCrystalSafeGates db now userId userTier requestHash forceFullAnalysis =
        (.rateLimited e,
          { db with dedupe := (checkDuplicateRequest db.dedupe now userId requestHash 10).2.1 })) ∧
    (∀ op,
      (identifyCrystalSafeGates db now userId userTier requestHash forceFullAnalysis).1 =
        .proceeds op →
      (checkDuplicateRequest db.dedupe now userId requestHash 10).1 = .ok () ∧
      (checkRateLimit db.rate now userId "identify" userTier).1 = .ok () ∧
      (checkSpendingLimits db.spend now userId op userTier).1 = .ok ()) := by
  refine ⟨?_, ?_, ?_⟩
  · intro e he
    have hdb := checkDuplicateRequest_error db.dedupe now userId requestHash 10 e he
    unfold identifyCrystalSafeGates
    rcases hd : checkDuplicateRequest db.dedupe now userId requestHash 10 with ⟨r, dd, t⟩
    rw [hd] at he hdb
    simp only at he hdb
    subst he hdb
    rfl
  · intro hok e he
    have hdb := checkRateLimit_error db.rate now userId "identify" userTier e he
    unfold identifyCrystalSafeGates
    rcases hd : checkDuplicateRequest db.dedupe now userId requestHash 10 with ⟨r, dd, t⟩
    rw [hd] at hok
    simp only at hok
    subst hok
    simp only
    rcases hr : checkRateLimit db.rate now userId "identify" userTier with ⟨r2, rr⟩
    rw [hr] at he hdb
    simp only at he hdb
    subst he hdb
    rfl
  · intro op hop
    unfold identifyCrystalSafeGates at hop
    rcases hd : checkDuplicateRequest db.dedupe now userId requestHash 10 with ⟨r, dd, t⟩
    rw [hd] at hop
    rcases r with e | u
    · cases hop
    · simp only at hop
      rcases hr : checkRateLimit db.rate now userId "identify" userTier with ⟨r2, rr⟩
      rw [hr] at hop
      rcases r2 with e | u
      · cases hop
      · simp only at hop
        by_cases hperm : forceFullAnalysis = true ∧ userTier ≠ "pro" ∧ userTier ≠ "founders"
        · rw [if_pos hperm] at hop
          cases hop
        · rw [if_neg hperm] at hop
          rcases hs : checkSpendingLimits db.spend now userId
            (gateOperationType userTier forceFullAnalysis) userTier with ⟨r3, ss⟩
          rw [hs] at hop
          rcases r3 with e | u
          · cases hop
          · simp only [GateOutcome.proceeds.injEq] at hop
            subst hop
            rw [hs]
            exact ⟨rfl, rfl, rfl⟩

/-- The fourth identification of a free user within the hour is rejected by
`checkRateLimit`. -/
theorem checkRateLimit_exhausted :
    (checkRateLimit exhaustedRateDb 1000 "u" "identify" "free").1 =
      .error (.identifyHourly 3 60) := rfl

/-- C22, as stated, fails: a request that is over the rate limit of the user and a
duplicate of a request made one second before is rejected by the deduplicator, not by
the rate limiter; and a request that is over the rate limit and not a duplicate is
rejected by the rate limiter after its dedupe marker has been written. -/
theorem duplicate_checked_before_rate_limit :
    (checkRateLimit limitedAndMarkedDb.rate 1000 "u" "identify" "free").1 =
      .error (.identifyHourly 3 60) ∧
    (∃ e, (identifyCrystalSafeGates limitedAndMarkedDb 1000 "u" "free" "abc" false).1 =
      .duplicateRequest e) ∧
    (identifyCrystalSafeGates limitedDb 1000 "u" "free" "abc" false).1 =
      .rateLimited (.identifyHourly 3 60) ∧
    limitedDb.dedupe (dedupeDocId "u" "abc") = none ∧
    (identifyCrystalSafeGates limitedDb 1000 "u" "free" "abc" false).2.dedupe
      (dedupeDocId "u" "abc") = some { timestamp := 1000, userId := "u" } := by
  have hrej := checkDuplicateRequest_rejects markedDb 1000 "u" "abc" 10
    { timestamp := 0, userId := "u" } rfl (by norm_num [ageSeconds])
  have hacc := checkDuplicateRequest_accepts (fun _ => none) 1000 "u" "abc" 10
    (fun m hm => by cases hm)
  have h1 := (identifyCrystalSafeGates_eq limitedAndMarkedDb 1000 "u" "free" "abc" false).1
    _ (by rw [show limitedAndMarkedDb.dedupe = markedDb from rfl, hrej])
  have h2 := (identifyCrystalSafeGates_eq limitedDb 1000 "u" "free" "abc" false).2.1
    (by rw [show limitedDb.dedupe = (fun _ => none) from rfl, hacc])
    _ checkRateLimit_exhausted
  refine ⟨checkRateLimit_exhausted, ⟨_, by rw [h1]⟩, by rw [h2], rfl, ?_⟩
  rw [h2, show limitedDb.dedupe = (fun _ => none) from rfl, hacc]
  simp

/-- C22, amended. In `identifyCrystalSafe` the gates run in the order deduplicator,
rate limiter, spend governor, and the handler goes on to the AI call only if all three
pass. A request the deduplicator rejects is rejected with its error, whatever the rate
limiter would say, and nothing is written. A request the deduplicator accepts and the
rate limiter rejects is rejected with the error of the rate limiter, after its dedupe
marker, stamped `now`, has been written; the rate and spend records are unchanged. -/
theorem gates_run_dedupe_rate_spend (db : GateDb) (now : Int)
    (userId userTier requestHash : String) (forceFullAnalysis : Bool) :
    (∀ e, (checkDuplicateRequest db.dedupe now userId requestHash 10).1 = .error e →
      identifyCrystalSafeGates db now userId userTier requestHash forceFullAnalysis =
        (.duplicateRequest e, db)) ∧
    ((checkDuplicateRequest db.dedupe now userId requestHash 10).1 = .ok () →
      ∀ e, (checkRateLimit db.rate now userId "identify" userTier).1 = .error e →
      (identifyCrystalSafeGates db now userId userTier requestHash forceFullAnalysis).1 =
        .rateLimited e ∧
      (identifyCrystalSafeGates db now userId userTier requestHash forceFullAnalysis).2.dedupe
        (dedupeDocId userId requestHash) = some { timestamp := now, userId := userId } ∧
      (identifyCrystalSafeGates db now userId userTier requestHash forceFullAnalysis).2.rate =
        db.rate ∧
      (identifyCrystalSafeGates db now userId userTier requestHash forceFullAnalysis).2.spend =
        db.spend) ∧
    (∀ op,
      (identifyCrystalSafeGates db now userId userTier requestHash forceFullAnalysis).1 =
        .proceeds op →
      (checkDuplicateRequest db.dedupe now userId requestHash 10).1 = .ok () ∧
      (checkRateLimit db.rate now userId "identify" userTier).1 = .ok () ∧
      (checkSpendingLimits db.spend now userId op userTier).1 = .ok ()) := by
  obtain ⟨h1, h2, h3⟩ :=
    identifyCrystalSafeGates_eq db now userId userTier requestHash forceFullAnalysis
  refine ⟨h1, ?_, h3⟩
  intro hok e he
  rw [h2 hok e he]
  refine ⟨rfl, ?_, rfl, rfl⟩
  have hacc : ∀ m, db.dedupe (dedupeDocId userId requestHash) = some m →
      ¬ ageSeconds now m < ((10 : Int) : ℚ) := by
    intro m hm hlt
    rw [checkDuplicateRequest_rejects db.dedupe now userId requestHash 10 m hm hlt] at hok
    cases hok
  rw [checkDuplicateRequest_accepts db.dedupe now userId requestHash 10 hacc]
  simp

/-- C22 amended, at a concrete input: a free user over the hourly rate limit, with no
dedupe marker. -/
theorem gates_run_dedupe_rate_spend_witness :
    (checkDuplicateRequest limitedDb.dedupe 1000 "u" "abc" 10).1 = .ok () ∧
    (identifyCrystalSafeGates limitedDb 1000 "u" "free" "abc" false).1 =
      .rateLimited (.identifyHourly 3 60) ∧
    (identifyCrystalSafeGates limitedDb 1000 "u" "free" "abc" false).2.rate =
      limitedDb.rate :=
  ⟨rfl,
    ((gates_run_dedupe_rate_spend limitedDb 1000 "u" "free" "abc" false).2.1 rfl _
      checkRateLimit_exhausted).1,
    ((gates_run_dedupe_rate_spend limitedDb 1000 "u" "free" "abc" false).2.1 rfl _
      checkRateLimit_exhausted).2.2.1⟩

/-! ### Referral codes -/

/-- For a random value in `[0, 1)`, the character picked by `generateReferralCode` is
one character of the alphabet. -/
theorem charAt_random (r : ℚ) (h0 : 0 ≤ r) (h1 : r < 1) :
    ∃ c ∈ referralCharacters.toList,
      charAt referralCharacters ⌊r * (referralCharacters.length : ℚ)⌋ =
        String.singleton c := by
  have hlen : referralCharacters.length = 32 := by decide
  have hlen2 : referralCharacters.toList.length = 32 := by decide
  rw [hlen]
  have hk0 : 0 ≤ ⌊r * ((32 : Nat) : ℚ)⌋ := Int.floor_nonneg.mpr (by positivity)
  have hk1 : ⌊r * ((32 : Nat) : ℚ)⌋ < 32 := by
    rw [Int.floor_lt]
    push_cast
    linarith
  have hn : ⌊r * ((32 : Nat) : ℚ)⌋.toNat < referralCharacters.toList.length := by
    rw [hlen2]
    omega
  refine ⟨referralCharacters.toList.get ⟨_, hn⟩, List.get_mem _ _ _, ?_⟩
  unfold charAt
  rw [if_pos hk0, List.get?_eq_get hn]

/-- C24. When every value of the random source is in `[0, 1)`, as the values of
`Math.random()` are, `generateReferralCode` returns the prefix `CG` followed by six
characters that all belong to the alphabet `ABCDEFGHJKLMNPQRSTUVWXYZ23456789`, a string
of length 8. -/
theorem generateReferralCode_format (random : Nat → ℚ)
    (hRandom : ∀ i, 0 ≤ random i ∧ random i < 1) :
    ∃ cs : List Char,
      cs.length = 6 ∧
      (∀ c ∈ cs, c ∈ referralCharacters.toList) ∧
      generateReferralCode random = "CG" ++ String.mk cs ∧
      (generateReferralCode random).length = 8 := by
  obtain ⟨c0, m0, e0⟩ := charAt_random (random 0) (hRandom 0).1 (hRandom 0).2
  obtain ⟨c1, m1, e1⟩ := charAt_random (random 1) (hRandom 1).1 (hRandom 1).2
  obtain ⟨c2, m2, e2⟩ := charAt_random (random 2) (hRandom 2).1 (hRandom 2).2
  obtain ⟨c3, m3, e3⟩ := charAt_random (random 3) (hRandom 3).1 (hRandom 3).2
  obtain ⟨c4, m4, e4⟩ := charAt_random (random 4) (hRandom 4).1 (hRandom 4).2
  obtain ⟨c5, m5, e5⟩ := charAt_random (random 5) (hRandom 5).1 (hRandom 5).2
  have hcode : generateReferralCode random = "CG" ++ String.mk [c0, c1, c2, c3, c4, c5] := by
    have hrange : List.range REFERRAL_CONFIG_codeLength = [0, 1, 2, 3, 4, 5] := by decide
    unfold generateReferralCode
    rw [hrange]
    simp only [List.foldl_cons, List.foldl_nil, e0, e1, e2, e3, e4, e5,
      REFERRAL_CONFIG_codePrefix]
    apply String.ext
    simp only [String.data_append, String.singleton, String.push, List.append_assoc]
    rfl
  refine ⟨[c0, c1, c2, c3, c4, c5], rfl, ?_, hcode, ?_⟩
  · intro c hc
    simp only [List.mem_cons, List.mem_singleton, List.not_mem_nil, or_false] at hc
    rcases hc with rfl | rfl | rfl | rfl | rfl | rfl <;> assumption
  · rw [hcode]
    simp only [String.length, String.data_append]
    rfl

/-- C24, at a concrete random source. -/
theorem generateReferralCode_format_witness :
    (∀ i : Nat, 0 ≤ (fun _ : Nat => (1 / 2 : ℚ)) i ∧ (fun _ : Nat => (1 / 2 : ℚ)) i < 1) ∧
    ∃ cs : List Char,
      cs.length = 6 ∧
      (∀ c ∈ cs, c ∈ referralCharacters.toList) ∧
      generateReferralCode (fun _ => 1 / 2) = "CG" ++ String.mk cs ∧
      (generateReferralCode (fun _ => 1 / 2)).length = 8 :=
  ⟨fun _ => by norm_num,
    generateReferralCode_format (fun _ => 1 / 2) (fun _ => by norm_num)⟩

/-! ### Analysis strategy -/

/-- For a previous confidence other than 0, `getAnalysisStrategy` returns a
progressive strategy exactly when the confidence is below the threshold of the tier
(premium 0.70, pro 0.80, founders 0.85), and `null` otherwise; for the free tier it
returns `null`. -/
theorem getAnalysisStrategy_nonzero (c : ℚ) (hc : c ≠ 0) :
    ((getAnalysisStrategy "premium" (some c)).map (fun s => s.type) =
      if c < 0.70 then some "progressive" else none) ∧
    ((getAnalysisStrategy "pro" (some c)).map (fun s => s.type) =
      if c < 0.80 then some "progressive" else none) ∧
    ((getAnalysisStrategy "founders" (some c)).map (fun s => s.type) =
      if c < 0.85 then some "progressive" else none) ∧
    getAnalysisStrategy "free" (some c) = none := by
  refine ⟨?_, ?_, ?_, ?_⟩
  · by_cases h : c < 0.70 <;>
      simp [getAnalysisStrategy, shouldTriggerProgressiveAnalysis, thresholds, hc, h]
  · by_cases h : c < 0.80 <;>
      simp [getAnalysisStrategy, shouldTriggerProgressiveAnalysis, thresholds, hc, h]
  · by_cases h : c < 0.85 <;>
      simp [getAnalysisStrategy, shouldTriggerProgressiveAnalysis, thresholds, hc, h]
  · simp [getAnalysisStrategy, shouldTriggerProgressiveAnalysis, thresholds, hc]

/-- C26, on the code. For a previous confidence of 0, which is below every threshold
(`shouldTriggerProgressiveAnalysis(0, 'premium')` is true), `getAnalysisStrategy`
returns the strategy of an initial analysis, for the premium tier and for the free
tier: neither a progressive strategy nor `null`. -/
theorem zero_confidence_gets_initial_strategy :
    shouldTriggerProgressiveAnalysis 0 "premium" = true ∧
    getAnalysisStrategy "premium" (some 0) =
      some
        { type := "initial", gridSize := "medium", model := "gemini-1.5-flash"
          maxTokens := 1024, estimatedCost := 0.002 } ∧
    getAnalysisStrategy "free" (some 0) =
      some
        { type := "initial", gridSize := "small", model := "gemini-1.5-flash"
          maxTokens := 1024, estimatedCost := 0.001 } := by
  refine ⟨?_, ?_, ?_⟩
  · norm_num [shouldTriggerProgressiveAnalysis, thresholds]
  · simp [getAnalysisStrategy]
  · simp [getAnalysisStrategy]

/-! ### Dedupe document ids -/

/-- The characters of a dedupe document id. -/
theorem dedupeDocId_data (userId requestHash : String) :
    (dedupeDocId userId requestHash).data = userId.data ++ '_' :: requestHash.data := by
  unfold dedupeDocId
  simp only [String.data_append, List.append_assoc]
  rfl

/-- C28, as stated, fails: the pairs (`a_b`, `c`) and (`a`, `b_c`) are different and
have the same document id, and the marker written for the first pair makes a request
of the second pair, which would be accepted without it, a rejected duplicate. -/
theorem dedupeDocId_collision :
    dedupeDocId "a_b" "c" = dedupeDocId "a" "b_c" ∧
    "a_b" ≠ "a" ∧
    (checkDuplicateRequest (fun _ => none) 1000 "a" "b_c" 10).1 = .ok () ∧
    ∃ wait,
      (checkDuplicateRequest (checkDuplicateRequest (fun _ => none) 0 "a_b" "c" 10).2.1
        1000 "a" "b_c" 10).1 = .error (.duplicateRequest wait) := by
  refine ⟨by decide, by decide, rfl, ?_⟩
  have hacc := checkDuplicateRequest_accepts (fun _ => none) 0 "a_b" "c" 10
    (fun m hm => by cases hm)
  rw [hacc]
  refine ⟨⌈((10 : Int) : ℚ) - ageSeconds 1000 { timestamp := 0, userId := "a_b" }⌉, ?_⟩
  rw [checkDuplicateRequest_rejects _ 1000 "a" "b_c" 10 { timestamp := 0, userId := "a_b" }
    (by
      rw [show dedupeDocId "a" "b_c" = dedupeDocId "a_b" "c" by decide]
      simp)
    (by norm_num [ageSeconds])]

/-- C28, amended. For request hashes of the same length, as the fingerprints of 16
hexadecimal digits of `identifyCrystalSafe` are, different (userId, requestHash) pairs
have different document ids, so a marker written for one pair does not change the
result of `checkDuplicateRequest` for a different pair. -/
theorem dedupeDocId_injective_same_length (userId1 hash1 userId2 hash2 : String)
    (hLen : hash1.length = hash2.length) :
    (dedupeDocId userId1 hash1 = dedupeDocId userId2 hash2 →
      userId1 = userId2 ∧ hash1 = hash2) ∧
    (userId1 ≠ userId2 ∨ hash1 ≠ hash2 →
      ∀ (db : DedupeDb) (m : DedupeMarker) (now w : Int),
        (checkDuplicateRequest (Function.update db (dedupeDocId userId1 hash1) (some m))
          now userId2 hash2 w).1 = (checkDuplicateRequest db now userId2 hash2 w).1) := by
  have hinj : dedupeDocId userId1 hash1 = dedupeDocId userId2 hash2 →
      userId1 = userId2 ∧ hash1 = hash2 := by
    intro h
    have hd := congrArg String.data h
    rw [dedupeDocId_data, dedupeDocId_data] at hd
    have hl : ('_' :: hash1.data).length = ('_' :: hash2.data).length := by
      simp only [List.length_cons]
      exact congrArg (· + 1) hLen
    obtain ⟨h1, h2⟩ := List.append_inj' hd hl
    exact ⟨String.ext h1, String.ext (List.cons.inj h2).2⟩
  refine ⟨hinj, ?_⟩
  intro hne db m now w
  have hid : dedupeDocId userId2 hash2 ≠ dedupeDocId userId1 hash1 := by
    intro h
    obtain ⟨h1, h2⟩ := hinj h.symm
    rcases hne with hne | hne
    · exact hne h1
    · exact hne h2
  unfold checkDuplicateRequest
  simp only [Function.update_noteq hid]
  rcases db (dedupeDocId userId2 hash2) with _ | data
  · rfl
  · by_cases hage : ageSeconds now data < (w : ℚ) <;> simp [hage]

/-- C28 amended, at a concrete input: two users and one fingerprint. -/
theorem dedupeDocId_injective_same_length_witness :
    "0123456789abcdef".length = "0123456789abcdef".length ∧
    (checkDuplicateRequest
      (Function.update (fun _ => none) (dedupeDocId "alice" "0123456789abcdef")
        (some { timestamp := 0, userId := "alice" }))
      1000 "bob" "0123456789abcdef" 10).1 =
    (checkDuplicateRequest (fun _ => none) 1000 "bob" "0123456789abcdef" 10).1 :=
  ⟨rfl, (dedupeDocId_injective_same_length "alice" "0123456789abcdef" "bob"
    "0123456789abcdef" rfl).2 (Or.inl (by decide)) _ _ _ _⟩

/-! ### Tier profiles and credits -/

/-- C29, as stated, fails: for the tier name `enterprise`, which is not in
`TIER_LIMITS`, `checkCredits` skips the credit check (it returns `hasCredits: true`
without touching the ledger, whatever the cost), although the profile the module uses
for that name, the free one, has `needsCredits = true`. -/
theorem unknown_tier_skips_credit_check :
    TIER_LIMITS "enterprise" = none ∧
    (tierLimitsFor "enterprise").needsCredits = true ∧
    checkCredits newUserDb "u" 100 "enterprise" =
      (.ok { hasCredits := true, balance := .infinity }, newUserDb) := by
  refine ⟨by decide, by decide, ?_⟩
  simp [checkCredits]

/-- C29, amended. For every tier string `t`, `checkCredits` skips the credit check (it
returns `hasCredits: true` with an infinite balance and the database it was given)
exactly when `t` is not `free`; for a tier name of `TIER_LIMITS` this is exactly when
its profile has `needsCredits = false`. -/
theorem checkCredits_skips_iff_not_free (db : CreditDb) (userId : String) (cost : Int)
    (t : String) :
    (checkCredits db userId cost t =
        (.ok { hasCredits := true, balance := .infinity }, db) ↔ t ≠ "free") ∧
    (∀ l, TIER_LIMITS t = some l → (l.needsCredits = false ↔ t ≠ "free")) := by
  constructor
  · constructor
    · intro h hfree
      subst hfree
      have h1 := congrArg Prod.fst h
      unfold checkCredits at h1
      simp only [ne_eq, not_true_eq_false, if_false] at h1
      by_cases hc : (getCreditBalance db userId).1 < cost
      · simp [hc] at h1
      · simp [hc] at h1
    · intro h
      simp [checkCredits, h]
  · intro l hl
    unfold TIER_LIMITS at hl
    split at hl
    · cases hl
      simp [TIER_LIMITS_free]
    · cases hl
      simp
    · cases hl
      simp
    · cases hl
      simp
    · cases hl

/-- C29 amended, at a concrete input: a premium user asking for 100 credits' worth of
work skips the check, and the premium profile has `needsCredits = false`. -/
theorem checkCredits_skips_iff_not_free_witness :
    checkCredits newUserDb "u" 100 "premium" =
      (.ok { hasCredits := true, balance := .infinity }, newUserDb) ∧
    ∀ l, TIER_LIMITS "premium" = some l → l.needsCredits = false :=
  ⟨(checkCredits_skips_iff_not_free newUserDb "u" 100 "premium").1.2 (by decide),
    fun l hl =>
      ((checkCredits_skips_iff_not_free newUserDb "u" 100 "premium").2 l hl).2 (by decide)⟩

/-! ### Streaks -/

/-- The record `dailyCheckIn` writes when it succeeds. -/
theorem dailyCheckIn_ok (db : StreakDb) (now : Int) (userId userTier : String)
    (res : CheckInResult) (h : (dailyCheckIn db now userId userTier).1 = .ok res) :
    checkedInToday (db userId) now = false ∧
    (dailyCheckIn db now userId userTier).2 userId =
      some
        { current := (streakAfter (db userId) now userTier).1
          longest := max (match db userId with
            | some data => data.longest
            | none => 0) (streakAfter (db userId) now userTier).1
          lastCheckIn := some now
          freezesRemaining := (streakAfter (db userId) now userTier).2
          totalCheckIns := (match db userId with
            | some data => data.totalCheckIns
            | none => 0) + 1
          tier := userTier } := by
  unfold dailyCheckIn at h ⊢
  by_cases hc : checkedInToday (db userId) now = true
  · rw [if_pos hc] at h
    cases h
  · rw [if_neg hc]
    exact ⟨by simpa using hc, by simp⟩

/-- The streak after a check-in on another day: one more, or 1; the freezes: the same,
or one less when there was one. -/
theorem nextStreak_cases (current freezesRemaining lastCheckIn now : Int) :
    ((nextStreak current freezesRemaining lastCheckIn now).1 = current + 1 ∨
      (nextStreak current freezesRemaining lastCheckIn now).1 = 1) ∧
    ((nextStreak current freezesRemaining lastCheckIn now).2 = freezesRemaining ∨
      ((nextStreak current freezesRemaining lastCheckIn now).2 = freezesRemaining - 1 ∧
        freezesRemaining > 0)) := by
  unfold nextStreak
  by_cases h1 : getDaysDifference lastCheckIn now = 1
  · simp [h1]
  · by_cases h2 : getDaysDifference lastCheckIn now = 2 ∧ freezesRemaining > 0
    · simp only [h1, h2, if_false]
      simp [h2.2]
    · simp [h1, h2]

/-- The streak freezes of a tier are not negative. -/
theorem freezeAvailableFor_nonneg (userTier : String) : 0 ≤ freezeAvailableFor userTier := by
  unfold freezeAvailableFor
  split <;> decide

/-- The streak counter computed from a record whose counter is not negative is at
least 1. -/
theorem streakAfter_pos (doc : Option StreakRecord) (now : Int) (userTier : String)
    (h : ∀ r, doc = some r → 0 ≤ r.current) : 1 ≤ (streakAfter doc now userTier).1 := by
  rcases doc with _ | r
  · simp [streakAfter]
  · have hcur := h r rfl
    rcases hl : r.lastCheckIn with _ | l
    · simp [streakAfter, hl]
    · simp only [streakAfter, hl]
      rcases (nextStreak_cases r.current r.freezesRemaining l now).1 with h1 | h1 <;> omega

/-- The stored streak counters stay counts: when no stored counter is negative before
a `dailyCheckIn`, none is after it. -/
theorem dailyCheckIn_keeps_counts (db : StreakDb) (now : Int) (userId userTier : String)
    (h : ∀ u r, db u = some r → 0 ≤ r.current) :
    ∀ u r, (dailyCheckIn db now userId userTier).2 u = some r → 0 ≤ r.current := by
  intro u r hr
  unfold dailyCheckIn at hr
  by_cases hc : checkedInToday (db userId) now = true
  · rw [if_pos hc] at hr
    exact h u r hr
  · rw [if_neg hc] at hr
    by_cases hu : u = userId
    · subst hu
      simp only [Function.update_same, Option.some.injEq] at hr
      subst hr
      have := streakAfter_pos (db u) now userTier (h u)
      dsimp only
      omega
    · simp only [Function.update_noteq hu] at hr
      exact h u r hr

/-- Starting from no streak record at all, after any sequence of `dailyCheckIn` calls
no stored streak counter is negative. -/
theorem runCheckIns_counts (calls : List (Int × String × String)) :
    ∀ db : StreakDb, (∀ u r, db u = some r → 0 ≤ r.current) →
      ∀ u r, runCheckIns db calls u = some r → 0 ≤ r.current := by
  induction calls with
  | nil => intro db h; exact h
  | cons c rest ih =>
    intro db h
    exact ih _ (dailyCheckIn_keeps_counts db c.1 c.2.1 c.2.2 h)

/-- C30. After a successful `dailyCheckIn`, the stored streak counter being a count
(not negative) before the call when there is a record: the stored record satisfies
`longest >= current >= 1`; `longest` is not smaller than before, `totalCheckIns` has
grown by exactly 1 (it is 1 for a first record), and `freezesRemaining` is `>= 0`
whenever it was `>= 0` before (and for a first record). -/
theorem dailyCheckIn_invariants (db : StreakDb) (now : Int) (userId userTier : String)
    (res : CheckInResult)
    (hOk : (dailyCheckIn db now userId userTier).1 = .ok res)
    (hCount : ∀ r, db userId = some r → 0 ≤ r.current) :
    ∃ w, (dailyCheckIn db now userId userTier).2 userId = some w ∧
      w.longest ≥ w.current ∧ w.current ≥ 1 ∧
      (∀ r, db userId = some r →
        w.longest ≥ r.longest ∧ w.totalCheckIns = r.totalCheckIns + 1 ∧
        (0 ≤ r.freezesRemaining → 0 ≤ w.freezesRemaining)) ∧
      (db userId = none → w.totalCheckIns = 1 ∧ 0 ≤ w.freezesRemaining) := by
  obtain ⟨-, hw⟩ := dailyCheckIn_ok db now userId userTier res hOk
  refine ⟨_, hw, le_max_right _ _, ?_, ?_, ?_⟩
  · rcases hdb : db userId with _ | r
    · simp [streakAfter]
    · rcases hl : r.lastCheckIn with _ | l
      · simp [streakAfter, hl]
      · have hcur := hCount r hdb
        simp only [streakAfter, hl]
        rcases (nextStreak_cases r.current r.freezesRemaining l now).1 with h | h <;>
          omega
  · intro r hdb
    simp only [hdb]
    refine ⟨le_max_left _ _, trivial, ?_⟩
    intro hf
    rcases hl : r.lastCheckIn with _ | l
    · simp [streakAfter, hl, hf]
    · simp only [streakAfter, hl]
      rcases (nextStreak_cases r.current r.freezesRemaining l now).2 with h | ⟨h, hpos⟩ <;>
        omega
  · intro hdb
    simp only [hdb, streakAfter]
    exact ⟨by norm_num, freezeAvailableFor_nonneg userTier⟩

/-- The check-in at noon of day 11 of a user whose last check-in was at noon of day 10
succeeds. -/
theorem dailyCheckIn_noon_to_noon :
    ∃ res, (dailyCheckIn (streakDbAt (instantOf 10 12 0) 0) (instantOf 11 12 0) "u"
      "free").1 = .ok res := by
  have hsame : checkedInToday (streakDbAt (instantOf 10 12 0) 0 "u") (instantOf 11 12 0) =
      false := by decide
  unfold dailyCheckIn
  rw [hsame]
  exact ⟨_, rfl⟩

/-- C30, at a concrete input: a streak of 5 days, checked in at noon of the next
day. -/
theorem dailyCheckIn_invariants_witness :
    (∀ r, streakDbAt (instantOf 10 12 0) 0 "u" = some r → 0 ≤ r.current) ∧
    ∃ w, (dailyCheckIn (streakDbAt (instantOf 10 12 0) 0) (instantOf 11 12 0) "u"
        "free").2 "u" = some w ∧
      w.longest ≥ w.current ∧ w.current ≥ 1 := by
  have hCount : ∀ r, streakDbAt (instantOf 10 12 0) 0 "u" = some r → 0 ≤ r.current := by
    intro r hr
    simp only [streakDbAt, Option.some.injEq] at hr
    subst hr
    decide
  obtain ⟨res, hres⟩ := dailyCheckIn_noon_to_noon
  obtain ⟨w, hw, h1, h2, -⟩ := dailyCheckIn_invariants (streakDbAt (instantOf 10 12 0) 0)
    (instantOf 11 12 0) "u" "free" res hres hCount
  exact ⟨hCount, w, hw, h1, h2⟩

/-- The days between 23:00 of day 10 and 01:00 of day 11 round to 0, and the days
between 00:30 of day 10 and 23:30 of day 11 round to 2. -/
theorem getDaysDifference_examples :
    getDaysDifference (instantOf 10 23 0) (instantOf 11 1 0) = 0 ∧
    getDaysDifference (instantOf 10 0 30) (instantOf 11 23 30) = 2 := by
  constructor
  · unfold getDaysDifference
    rw [Int.floor_eq_iff]
    have h : instantOf 11 1 0 - instantOf 10 23 0 = 7200000 := by decide
    rw [h]
    norm_num [abs_of_nonneg]
  · unfold getDaysDifference
    rw [Int.floor_eq_iff]
    have h : instantOf 11 23 30 - instantOf 10 0 30 = 169200000 := by decide
    rw [h]
    norm_num [abs_of_nonneg]

/-- C25, on the code. A user with a streak of 5 whose last check-in was at 23:00 of
11 January 1970 checks in at 01:00 of 12 January, the next calendar day: the streak is
reset to 1, not raised to 6. And a premium user with one streak freeze whose last
check-in was at 00:30 of 11 January checks in at 23:30 of 12 January, the next
calendar day: the streak becomes 6 and the freeze is consumed. -/
theorem next_day_checkin_by_elapsed_time :
    calendarDate (instantOf 10 23 0) = (1970, 0, 11) ∧
    calendarDate (instantOf 11 1 0) = (1970, 0, 12) ∧
    (dailyCheckIn (streakDbAt (instantOf 10 23 0) 0) (instantOf 11 1 0) "u" "free").2 "u" =
      some
        { current := 1, longest := 5, lastCheckIn := some (instantOf 11 1 0)
          freezesRemaining := 0, totalCheckIns := 6, tier := "free" } ∧
    calendarDate (instantOf 10 0 30) = (1970, 0, 11) ∧
    calendarDate (instantOf 11 23 30) = (1970, 0, 12) ∧
    (dailyCheckIn (streakDbAt (instantOf 10 0 30) 1) (instantOf 11 23 30) "u" "premium").2
        "u" =
      some
        { current := 6, longest := 6, lastCheckIn := some (instantOf 11 23 30)
          freezesRemaining := 0, totalCheckIns := 6, tier := "premium" } := by
  have hs1 : checkedInToday (streakDbAt (instantOf 10 23 0) 0 "u") (instantOf 11 1 0) =
      false := by decide
  have hs2 : checkedInToday (streakDbAt (instantOf 10 0 30) 1 "u") (instantOf 11 23 30) =
      false := by decide
  obtain ⟨hd1, hd2⟩ := getDaysDifference_examples
  refine ⟨by decide, by decide, ?_, by decide, by decide, ?_⟩
  · unfold dailyCheckIn
    rw [hs1]
    simp [streakDbAt, streakAfter, nextStreak, hd1]
  · unfold dailyCheckIn
    rw [hs2]
    simp [streakDbAt, streakAfter, nextStreak, hd2]

/-! ### Achievements -/

/-- Every entry of `ACHIEVEMENTS` awards a positive number of credits and a badge. -/
theorem ACHIEVEMENTS_entry (achievementId : String) (a : Achievement)
    (h : ACHIEVEMENTS achievementId = some a) : 0 < a.credits ∧ a.badge ≠ "" := by
  unfold ACHIEVEMENTS at h
  split at h <;> first | (cases h; exact ⟨by decide, by decide⟩) | cases h

/-- A call for an unknown achievement id returns `null` and changes nothing. -/
theorem checkAchievement_unknown (db : GamificationDb) (now : Int)
    (userId achievementId : String) (h : ACHIEVEMENTS achievementId = none) :
    checkAchievement db now userId achievementId = (none, db) := by
  unfold checkAchievement
  rw [h]

/-- A call for an achievement the user has earned returns `null` and changes
nothing. -/
theorem checkAchievement_earned (db : GamificationDb) (now : Int)
    (userId achievementId : String) (h : db.achievements userId achievementId = true) :
    checkAchievement db now userId achievementId = (none, db) := by
  unfold checkAchievement
  rcases ACHIEVEMENTS achievementId with _ | a
  · rfl
  · simp [h]

/-- A call for an achievement of the table the user has not earned: the result and the
documents after it. -/
theorem checkAchievement_first (db : GamificationDb) (now : Int)
    (userId achievementId : String) (a : Achievement)
    (ha : ACHIEVEMENTS achievementId = some a)
    (h : db.achievements userId achievementId = false) :
    checkAchievement db now userId achievementId =
      (some (a, now),
        { achievements := Function.update db.achievements userId
            (Function.update (db.achievements userId) achievementId true)
          credits :=
            (awardCredits db.credits userId a.credits ("achievement_" ++ achievementId)).2
          badges := awardBadge db.badges userId a.badge }) := by
  obtain ⟨hc, hb⟩ := ACHIEVEMENTS_entry achievementId a ha
  unfold checkAchievement
  rw [ha]
  simp [h, hc, hb]

/-- An achievement that is earned stays earned through a call for any achievement. -/
theorem checkAchievement_keeps_earned (db : GamificationDb) (now : Int)
    (userId achievementId other : String)
    (h : db.achievements userId achievementId = true) :
    (checkAchievement db now userId other).2.achievements userId achievementId = true := by
  rcases ha : ACHIEVEMENTS other with _ | a
  · rw [checkAchievement_unknown db now userId other ha]
    exact h
  · rcases he : db.achievements userId other with _ | _
    · rw [checkAchievement_first db now userId other a ha he]
      simp only [Function.update_same]
      by_cases hid : achievementId = other
      · subst hid
        simp
      · simp [Function.update_noteq hid, h]
    · rw [checkAchievement_earned db now userId other he]
      exact h

/-- An achievement that is earned stays earned through any sequence of calls. -/
theorem runAchievements_keeps_earned (userId achievementId : String)
    (calls : List (String × Int)) :
    ∀ db : GamificationDb, db.achievements userId achievementId = true →
      (runAchievements db userId calls).achievements userId achievementId = true := by
  induction calls with
  | nil => intro db h; exact h
  | cons c rest ih =>
    intro db h
    exact ih _ (checkAchievement_keeps_earned db c.2 userId achievementId c.1 h)

/-- C27. For every user and achievement id: a call for an unknown id returns `null`
and changes nothing; a call for an id the user has earned returns `null` and changes
nothing; the first call for a known id that is not yet earned records it, returns the
achievement, and awards its configured credits, exactly once: one award transaction of
that amount is appended to the history and the balance grows by that amount; and after
a call for a known id, whatever calls follow, a later call for that id returns `null`
and changes nothing, so the credits are awarded at most once. -/
theorem checkAchievement_awards_once (db : GamificationDb) (now : Int)
    (userId achievementId : String) :
    (ACHIEVEMENTS achievementId = none →
      checkAchievement db now userId achievementId = (none, db)) ∧
    (db.achievements userId achievementId = true →
      checkAchievement db now userId achievementId = (none, db)) ∧
    (∀ a, ACHIEVEMENTS achievementId = some a →
      db.achievements userId achievementId = false →
      (checkAchievement db now userId achievementId).1 = some (a, now) ∧
      (checkAchievement db now userId achievementId).2.achievements userId achievementId =
        true ∧
      ((checkAchievement db now userId achievementId).2.credits.docs userId).history =
        (db.credits.docs userId).history ++
          [{ type := .award, amount := a.credits
             reason := "achievement_" ++ achievementId
             balanceAfter := balanceOrZero (db.credits.docs userId).record + a.credits }] ∧
      balanceOrZero
          ((checkAchievement db now userId achievementId).2.credits.docs userId).record =
        balanceOrZero (db.credits.docs userId).record + a.credits) ∧
    (∀ a, ACHIEVEMENTS achievementId = some a →
      ∀ (calls : List (String × Int)) (later : Int),
        checkAchievement
            (runAchievements (checkAchievement db now userId achievementId).2 userId calls)
            later userId achievementId =
          (none,
            runAchievements (checkAchievement db now userId achievementId).2 userId
              calls)) := by
  refine ⟨checkAchievement_unknown db now userId achievementId,
    checkAchievement_earned db now userId achievementId, ?_, ?_⟩
  · intro a ha h
    rw [checkAchievement_first db now userId achievementId a ha h]
    refine ⟨rfl, by simp, ?_, ?_⟩
    · rw [docs_awardCredits]
    · rw [docs_awardCredits]
      rcases (db.credits.docs userId).record with _ | r <;> simp [balanceOrZero]
  · intro a ha calls later
    apply checkAchievement_earned
    apply runAchievements_keeps_earned
    rcases he : db.achievements userId achievementId with _ | _
    · rw [checkAchievement_first db now userId achievementId a ha he]
      simp
    · rw [checkAchievement_earned db now userId achievementId he]
      exact he

/-- C27, at a concrete input: the first identification of a new user awards 2 credits,
and after two other calls a second call for it returns `null`. -/
theorem checkAchievement_awards_once_witness :
    (checkAchievement newGamificationDb 1000 "u" "first_identification").1 =
      some
        ({ id := "first_identification", name := "First Discovery", credits := 2
           badge := "novice_seeker" }, 1000) ∧
    balanceOrZero ((checkAchievement newGamificationDb 1000 "u"
        "first_identification").2.credits.docs "u").record =
      balanceOrZero (newGamificationDb.credits.docs "u").record + 2 ∧
    (checkAchievement
      (runAchievements (checkAchievement newGamificationDb 1000 "u"
        "first_identification").2 "u" [("first_dream", 2000), ("nothing", 3000)])
      4000 "u" "first_identification").1 = none := by
  have h := checkAchievement_awards_once newGamificationDb 1000 "u" "first_identification"
  obtain ⟨h1, -, -, h4⟩ := h.2.2.1 _ rfl rfl
  exact ⟨h1, h4, by rw [h.2.2.2 _ rfl]⟩

/-! ### Deductions one after another -/

/-- When the transactions of `n + 1` deductions of one credit are committed one after
another against a balance of `n`, the first `n` succeed, the last one fails for
insufficient credits, and the balance ends at 0. How transactions that overlap in time
are ordered, retried or aborted is decided by the store and is not part of this
development. -/
theorem deductSerially_one_short (userId operation : String) (n : Nat) :
    ∀ (db : CreditDb) (r : CreditRecord), (db.docs userId).record = some r →
      r.balance = n →
      (deductSerially db userId operation (n + 1)).1 =
        List.replicate n (.ok ()) ++ [.error (.insufficientCredits 1 0)] ∧
      balanceOrZero ((deductSerially db userId operation (n + 1)).2.docs userId).record =
        0 := by
  induction n with
  | zero =>
    intro db r hr hb
    have hlt : balanceOrZero (db.docs userId).record < 1 := by
      rw [hr]
      simp only [balanceOrZero]
      omega
    have hz : balanceOrZero (db.docs userId).record = 0 := by
      rw [hr]
      simp only [balanceOrZero]
      omega
    simp only [deductSerially, deductCredits_eq, if_pos hlt, hz]
    exact ⟨rfl, hz⟩
  | succ k ih =>
    intro db r hr hb
    have hge : ¬ balanceOrZero (db.docs userId).record < 1 := by
      rw [hr]
      simp only [balanceOrZero]
      omega
    have hstep : deductSerially db userId operation (k + 1 + 1) =
        ((deductCredits db userId 1 operation).1 ::
            (deductSerially (deductCredits db userId 1 operation).2 userId operation
              (k + 1)).1,
          (deductSerially (deductCredits db userId 1 operation).2 userId operation
            (k + 1)).2) := rfl
    have hdocs := docs_deductCredits db userId 1 operation
    rw [hr] at hdocs
    have hnot : ¬ r.balance < 1 := by omega
    simp only [if_neg hnot] at hdocs
    have hok : (deductCredits db userId 1 operation).1 = .ok () := by
      rw [deductCredits_eq, if_neg hge, hr]
    obtain ⟨h1, h2⟩ := ih (deductCredits db userId 1 operation).2
      { balance := r.balance - 1, totalEarned := r.totalEarned
        totalSpent := r.totalSpent + 1 }
      (by rw [hdocs]) (by dsimp only; omega)
    rw [hstep]
    refine ⟨?_, h2⟩
    dsimp only
    rw [hok, h1]
    rfl

end CrystalGrimoire
